import Mathlib

/-!
# Exoscript analysis engine — verification development

Shallow embedding of the Exoscript language-analysis engine (lexer,
parser, bracket-balance validator, diagnostics aggregator) from the
TypeScript sources, together with theorems settling the specification
claims.  Strings are modelled as `List Char`; JavaScript regular
expressions are translated into explicit character scans (all the
patterns involved are deterministic up to a documented greedy choice).
JavaScript `\w` is exactly `[A-Za-z0-9_]`; `\s`/`trim` use the
whitespace set modelled by `isWS` below (the common JS whitespace
characters).  `x || d` on strings/numbers is modelled by `jsOrStr` /
`jsOrNat` (JS treats `''` and `0` as falsy).
-/

namespace Exoscript

/-- Position in a source document (0-based line and character). -/
structure Position where
  line : Nat
  character : Nat
deriving DecidableEq, Repr

/-- Range in a source document.  The source field `end` is called `stop`
here because `end` is a Lean keyword. -/
structure Range where
  start : Position
  stop : Position
deriving DecidableEq, Repr

/-- Diagnostic severity strings of the engine (`ParseError['severity']`). -/
inductive Severity where
  | error
  | warning
  | info
  | hint
deriving DecidableEq, Repr

/-- Parser error/warning record. -/
structure ParseError where
  message : String
  range : Range
  severity : Severity
  code : Option String
deriving DecidableEq, Repr

/-- Token types produced by the lexer (`enum TokenType`).  Only the
constructors actually produced or consumed are exercised, but the full
enum is kept. -/
inductive TokenType where
  | STORY_HEADER
  | CHOICE
  | CHOICE_ID
  | JUMP
  | PAGE_BREAK
  | TILDE_IF
  | TILDE_IFD
  | TILDE_SET
  | TILDE_SETIF
  | TILDE_CALL
  | TILDE_CALLIF
  | TILDE_DISABLED
  | TILDE_ONCE
  | BRACKET_IF
  | BRACKET_ELSE
  | BRACKET_ELSEIF
  | BRACKET_ENDIF
  | BRACKET_OR
  | BRACKET_VAR
  | BRACKET_RANDOM
  | COMMENT_LINE
  | COMMENT_BLOCK_START
  | COMMENT_BLOCK_END
  | VARIABLE
  | OPERATOR
  | NUMBER
  | BOOLEAN
  | NULL
  | IDENTIFIER
  | TEXT
  | NEWLINE
  | WHITESPACE
  | EOF
  | ERROR
deriving DecidableEq, Repr

/-- Jump style tag (`'normal' | 'silent' | 'nobreak'`). -/
inductive JumpType where
  | normal
  | silent
  | nobreak
deriving DecidableEq, Repr

/-- Optional token payload (`Token['data']`); absent fields are `none`. -/
structure TokenData where
  choiceLevel : Option Nat := none
  jumpType : Option JumpType := none
  targetId : Option String := none
  choiceId : Option String := none
  storyId : Option String := none
  isHidden : Option Bool := none
  condition : Option String := none
deriving DecidableEq, Repr

/-- A token produced by the lexer. -/
structure Token where
  type : TokenType
  value : String
  range : Range
  data : TokenData := {}
deriving DecidableEq, Repr

/-- Line classification (`enum LineType`). -/
inductive LineType where
  | EMPTY
  | COMMENT
  | STORY_HEADER
  | TILDE_COMMAND
  | CHOICE
  | CHOICE_ID
  | JUMP
  | PAGE_BREAK
  | TEXT
  | IN_BLOCK_COMMENT
deriving DecidableEq, Repr

/-- The fixed whitelist of tilde commands (`TILDE_COMMANDS`). -/
def TILDE_COMMANDS : List String :=
  ["if", "ifd", "set", "setif", "call", "callif", "disabled", "once"]

/-! ## String helpers (JS semantics) -/

/-- JS whitespace (`\\s`, also the set used by `String.prototype.trim`):
ASCII whitespace plus the Unicode space characters. -/
def isWS (c : Char) : Bool :=
  c == ' ' || c == '\t' || c == '\n' || c == '\r' || c == '\u000b' ||
  c == '\u000c' || c == '\u00a0' || c == '\u1680' ||
  (decide ('\u2000' ≤ c) && decide (c ≤ '\u200a')) ||
  c == '\u2028' || c == '\u2029' || c == '\u202f' || c == '\u205f' ||
  c == '\u3000' || c == '\ufeff'

/-- JS `\\w`: `[A-Za-z0-9_]` (`Char.isAlpha` and `Char.isDigit` are ASCII). -/
def isWordChar (c : Char) : Bool :=
  c.isAlpha || c.isDigit || c == '_'

/-- Characters matched by `.` in a JS regex without the `s` flag:
anything except line terminators. -/
def isDotChar (c : Char) : Bool :=
  !(c == '\n' || c == '\r' || c == '\u2028' || c == '\u2029')

/-- ASCII lower-casing, the fragment of `toLowerCase` the engine relies
on (it is only compared against ASCII keywords; non-ASCII characters
never lower-case onto them). -/
def asciiLower (c : Char) : Char :=
  if 'A' ≤ c ∧ c ≤ 'Z' then Char.ofNat (c.toNat + 32) else c

/-- `toLowerCase` on a character list. -/
def lowerStr (l : List Char) : List Char := l.map asciiLower

/-- `String.prototype.trim`. -/
def jsTrim (l : List Char) : List Char :=
  ((l.dropWhile isWS).reverse.dropWhile isWS).reverse

/-- `hay.startsWith(needle)`. -/
def strStartsWith (l p : List Char) : Bool := p.isPrefixOf l

/-- `startsWith` on `String`s. -/
def strStartsWithS (l p : String) : Bool := strStartsWith l.data p.data

/-- Helper for `indexOf`: first index `≥ i` at which `needle` occurs. -/
def jsIndexOfAux (hay needle : List Char) (i : Nat) : Option Nat :=
  if strStartsWith hay needle then some i
  else
    match hay with
    | [] => none
    | _ :: t => jsIndexOfAux t needle (i + 1)

/-- `hay.indexOf(needle)` (`none` for JS `-1`). -/
def jsIndexOf (hay needle : List Char) : Option Nat :=
  jsIndexOfAux hay needle 0

/-- `hay.indexOf(needle, start)` (`none` for JS `-1`). -/
def jsIndexOfFrom (hay needle : List Char) (start : Nat) : Option Nat :=
  (jsIndexOfAux (hay.drop start) needle 0).map (· + start)

/-- `x || d` for JS strings (`''` is falsy). -/
def jsOrStr (o : Option String) (d : String) : String :=
  match o with
  | some s => if s = "" then d else s
  | none => d

/-- `x || d` for JS numbers (`0` is falsy). -/
def jsOrNat (o : Option Nat) (d : Nat) : Nat :=
  match o with
  | some n => if n = 0 then d else n
  | none => d

/-- `x || d` for JS booleans. -/
def jsOrBool (o : Option Bool) (d : Bool) : Bool :=
  match o with
  | some b => if b then b else d
  | none => d

/-- Split on `/\r?\n/`: a `\n`, optionally preceded by `\r`, ends a
line; a lone `\r` stays inside its line (accumulator holds the current
line reversed). -/
def splitLinesAux (cur : List Char) : List Char → List (List Char)
  | [] => [cur.reverse]
  | '\r' :: '\n' :: rest => cur.reverse :: splitLinesAux [] rest
  | '\n' :: rest => cur.reverse :: splitLinesAux [] rest
  | c :: rest => splitLinesAux (c :: cur) rest

/-- `text.split(/\r?\n/)`. -/
def splitLines (l : List Char) : List (List Char) := splitLinesAux [] l

/-- `makeRange` of the lexer: a range within one line. -/
def makeRange (line s e : Nat) : Range := ⟨⟨line, s⟩, ⟨line, e⟩⟩

/-! ## Parenthesis-balance validators (lexer) -/

/-- Effect of one character on the paren counter: the loop body runs
`parenCount++` on `'('` and `parenCount--` on `')'`. -/
def parenDelta (c : Char) : Int :=
  (if c = '(' then 1 else 0) - (if c = ')' then 1 else 0)

/-- Net paren count of a string (opens minus closes). -/
def netParen : List Char → Int
  | [] => 0
  | c :: rest => parenDelta c + netParen rest

/-- The scanning loop shared by `validateConditionExpression` and
`validateSetExpression` (the source duplicates this loop verbatim up to
the error message, abstracted here as `mk`): walk the characters
updating the counter; on the first time the counter goes negative emit
one error at that index, set `foundError` and reset the counter to 0. -/
def parenScan (mk : Nat → ParseError) : List Char → Nat → Int → Bool → Int × List ParseError
  | [], _, count, _ => (count, [])
  | c :: rest, i, count, found =>
    let count1 := count + parenDelta c
    if count1 < 0 ∧ found = false then
      let r := parenScan mk rest (i + 1) 0 true
      (r.1, mk i :: r.2)
    else
      parenScan mk rest (i + 1) count1 found

/-- The in-loop error of `validateConditionExpression`. -/
def mkUnbalancedCond (lineNum startOffset : Nat) (i : Nat) : ParseError :=
  ⟨"Unbalanced parentheses: unexpected )",
    makeRange lineNum (startOffset + i) (startOffset + i + 1),
    Severity.error, some "unbalanced-parens"⟩

/-- The in-loop error of `validateSetExpression`. -/
def mkUnbalancedSet (lineNum startOffset : Nat) (i : Nat) : ParseError :=
  ⟨"Unbalanced parentheses in set expression",
    makeRange lineNum (startOffset + i) (startOffset + i + 1),
    Severity.error, some "unbalanced-parens"⟩

/-- The end-of-expression "missing )" error (identical in both
validators). -/
def mkMissingClose (lineNum startOffset len : Nat) : ParseError :=
  ⟨"Unbalanced parentheses: missing )",
    makeRange lineNum startOffset (startOffset + len),
    Severity.error, some "unbalanced-parens"⟩

/-- `Lexer.validateConditionExpression`. -/
def validateConditionExpression (expr : List Char) (lineNum startOffset : Nat) :
    List ParseError :=
  let trimmed := jsTrim expr
  let r := parenScan (mkUnbalancedCond lineNum startOffset) trimmed 0 0 false
  r.2 ++ (if 0 < r.1 then [mkMissingClose lineNum startOffset trimmed.length] else [])

/-- `Lexer.validateSetExpression`. -/
def validateSetExpression (expr : List Char) (lineNum startOffset : Nat) :
    List ParseError :=
  let trimmed := jsTrim expr
  let r := parenScan (mkUnbalancedSet lineNum startOffset) trimmed 0 0 false
  r.2 ++ (if 0 < r.1 then [mkMissingClose lineNum startOffset trimmed.length] else [])

/-- `Lexer.validateTildeCommand`: `disabled`/`once` need no expression;
an empty expression is tolerated for `set`/`call` and is a warning for
the rest; `if`/`ifd` and `set`/`setif` expressions get a paren scan. -/
def validateTildeCommand (cmd : String) (expression : List Char)
    (lineNum startIdx : Nat) : List ParseError :=
  if cmd = "disabled" ∨ cmd = "once" then []
  else if jsTrim expression = [] then
    if cmd = "set" ∨ cmd = "call" then []
    else
      [⟨"~" ++ cmd ++ " requires a condition or expression",
        makeRange lineNum startIdx (startIdx + cmd.length + 1),
        Severity.warning, some "empty-tilde-expression"⟩]
  else if cmd = "if" ∨ cmd = "ifd" then
    validateConditionExpression expression lineNum (startIdx + cmd.length + 2)
  else if cmd = "set" ∨ cmd = "setif" then
    validateSetExpression expression lineNum (startIdx + cmd.length + 2)
  else []

/-! ## Line dispatch (lexer)

Each JS regex of `tokenizeLine` is translated to an explicit scan.  All
of them are deterministic: wherever two adjacent greedy pieces could
overlap, the character classes are disjoint (`\s`/`\w`/literal), and a
trailing `(.*)$` only fails when the remainder contains a line
terminator that `.` cannot match — with backtracking, shrinking an
earlier greedy piece keeps the offending character inside `(.*)`, so
failure of the maximal-munch split implies failure of the whole regex.
-/

/-- `/^===\s+(\w+)/` on the trimmed line: returns (whole match, story
id). -/
def matchStoryHeader (t : List Char) : Option (List Char × List Char) :=
  if strStartsWith t ['=', '=', '='] then
    let rest := t.drop 3
    let ws := rest.takeWhile isWS
    if ws = [] then none
    else
      let w := (rest.drop ws.length).takeWhile isWordChar
      if w = [] then none else some (['=', '=', '='] ++ ws ++ w, w)
  else none

/-- `/^~(\w+)\s*(.*)?$/` on the trimmed line: returns (command word,
group 2, i.e. the rest after the whitespace run). -/
def matchTilde (t : List Char) : Option (List Char × List Char) :=
  match t with
  | '~' :: rest =>
    let w := rest.takeWhile isWordChar
    if w = [] then none
    else
      let g2 := (rest.drop w.length).dropWhile isWS
      if g2.all isDotChar then some (w, g2) else none
  | _ => none

/-- `/^(>{1,3})(!?)\s*(.*)$/` on the trimmed line: returns (number of
arrows, bang present, group 3). -/
def matchJump (t : List Char) : Option (Nat × Bool × List Char) :=
  match t with
  | '>' :: _ =>
    let arrows := min (t.takeWhile (fun c => c == '>')).length 3
    let rest := t.drop arrows
    let bang := match rest with | '!' :: _ => true | _ => false
    let rest2 := if bang then rest.drop 1 else rest
    let g3 := rest2.dropWhile isWS
    if g3.all isDotChar then some (arrows, bang, g3) else none
  | _ => none

/-- `/^=\s*(\w+)\s*$/` on the trimmed line: returns the identifier. -/
def matchChoiceIdLine (t : List Char) : Option (List Char) :=
  match t with
  | '=' :: rest =>
    let rest1 := rest.dropWhile isWS
    let w := rest1.takeWhile isWordChar
    if w = [] then none
    else if (rest1.drop w.length).all isWS then some w else none
  | _ => none

/-- `/^(\*+)(=?)\s*(.*)$/` on the trimmed line: returns (number of
stars, `=` present, group 3). -/
def matchChoice (t : List Char) : Option (Nat × Bool × List Char) :=
  match t with
  | '*' :: _ =>
    let stars := (t.takeWhile (fun c => c == '*')).length
    let rest := t.drop stars
    let hasId := match rest with | '=' :: _ => true | _ => false
    let rest2 := if hasId then rest.drop 1 else rest
    let g3 := rest2.dropWhile isWS
    if g3.all isDotChar then some (stars, hasId, g3) else none
  | _ => none

/-- `/^(\w+)\s*$/`: an identifier possibly followed by whitespace. -/
def matchWordOnly (t : List Char) : Option (List Char) :=
  let w := t.takeWhile isWordChar
  if w = [] then none
  else if (t.drop w.length).all isWS then some w else none

/-- `/^-\s*$/`: a lone dash. -/
def matchPageBreak (t : List Char) : Bool :=
  match t with
  | '-' :: rest => rest.all isWS
  | _ => false

/-- `Lexer.getTildeTokenType`. -/
def getTildeTokenType (cmd : String) : TokenType :=
  if cmd = "if" then .TILDE_IF
  else if cmd = "ifd" then .TILDE_IFD
  else if cmd = "set" then .TILDE_SET
  else if cmd = "setif" then .TILDE_SETIF
  else if cmd = "call" then .TILDE_CALL
  else if cmd = "callif" then .TILDE_CALLIF
  else if cmd = "disabled" then .TILDE_DISABLED
  else if cmd = "once" then .TILDE_ONCE
  else .ERROR

/-- `Lexer.validateBracketExpressions`: the source scans the bracketed
substrings of a text line and counts brackets, but every branch ends in
`continue` or a comment — it contains no `errors.push` at all, so it
emits no diagnostics. -/
def validateBracketExpressions (_line : List Char) (_lineNum : Nat) : List ParseError :=
  []

/-- `Lexer.tokenizeLineContent` (used for the remainder of a line after
a closing `*/`): pushes one TEXT token when the content is non-blank. -/
def tokenizeLineContent (lineNum startOffset : Nat) (content : List Char) : List Token :=
  if jsTrim content = [] then []
  else
    [⟨.TEXT, String.mk content,
      makeRange lineNum startOffset (startOffset + content.length), {}⟩]

/-- Carried lexer state: inside an unterminated block comment, and where
it started. -/
structure LexState where
  inBlockComment : Bool
  blockCommentStart : Option Position
deriving DecidableEq, Repr

/-- The dispatch chain of `tokenizeLine` from the line-comment check
down (everything after the block-comment handling); returns (tokens,
errors, line types) pushed for this line. -/
def tokenizeLineRest (lineNum : Nat) (line trimmed : List Char) :
    List Token × List ParseError × List LineType :=
  if strStartsWith trimmed ['/', '/'] then
    ([⟨.COMMENT_LINE, String.mk trimmed,
       makeRange lineNum ((jsIndexOf line ['/', '/']).getD 0) line.length, {}⟩],
     [], [.COMMENT])
  else if strStartsWith trimmed ['=', '=', '=', '='] then
    ([⟨.COMMENT_LINE, String.mk trimmed, makeRange lineNum 0 line.length, {}⟩],
     [], [.COMMENT])
  else
    match matchStoryHeader trimmed with
    | some m =>
      ([⟨.STORY_HEADER, String.mk m.1,
         makeRange lineNum ((jsIndexOf line ['=', '=', '=']).getD 0) line.length,
         { storyId := some (String.mk m.2) }⟩],
       [], [.STORY_HEADER])
    | none =>
      if strStartsWith trimmed ['=', '=', '='] ∧
          ¬ strStartsWith trimmed ['=', '=', '=', '='] then
        let startIdx := (jsIndexOf line ['=', '=', '=']).getD 0
        ([⟨.ERROR, String.mk trimmed, makeRange lineNum startIdx line.length, {}⟩],
         [⟨"Invalid story header. Expected: === storyID",
           makeRange lineNum startIdx line.length, Severity.error,
           some "invalid-story-header"⟩],
         [.STORY_HEADER])
      else
        match matchTilde trimmed with
        | some tm =>
          let cmd := String.mk (lowerStr tm.1)
          let startIdx := (jsIndexOf line ['~']).getD 0
          if TILDE_COMMANDS.contains cmd then
            ([⟨getTildeTokenType cmd, String.mk trimmed,
               makeRange lineNum startIdx line.length,
               { condition := some (String.mk tm.2) }⟩],
             validateTildeCommand cmd tm.2 lineNum startIdx,
             [.TILDE_COMMAND])
          else
            ([⟨.ERROR, String.mk trimmed, makeRange lineNum startIdx line.length, {}⟩],
             [⟨"Unknown tilde command: ~" ++ cmd ++ ". Valid commands: " ++
                 String.intercalate ", " TILDE_COMMANDS,
               makeRange lineNum startIdx (startIdx + cmd.length + 1),
               Severity.error, some "unknown-tilde-command"⟩],
             [.TILDE_COMMAND])
        | none =>
          match matchJump trimmed with
          | some jm =>
            let target := jsTrim jm.2.2
            let startIdx := (jsIndexOf line ['>']).getD 0
            let jt : JumpType :=
              if jm.1 = 2 then .silent
              else if jm.1 = 3 ∨ jm.2.1 = true then .nobreak
              else .normal
            ([⟨.JUMP, String.mk trimmed, makeRange lineNum startIdx line.length,
               { jumpType := some jt,
                 targetId := if target = [] then none else some (String.mk target) }⟩],
             [], [.JUMP])
          | none =>
            match matchChoiceIdLine trimmed with
            | some w =>
              -- the source also guards with `!trimmed.startsWith('==')`;
              -- that guard cannot fire on a successful match, because the
              -- character after `=` (and any whitespace) must then be a
              -- word character, and `=` is not one.
              ([⟨.CHOICE_ID, String.mk trimmed,
                 makeRange lineNum ((jsIndexOf line ['=']).getD 0) line.length,
                 { choiceId := some (String.mk w), isHidden := some false }⟩],
               [], [.CHOICE_ID])
            | none =>
              match matchChoice trimmed with
              | some cm =>
                let rest := jsTrim cm.2.2
                let startIdx := (jsIndexOf line ['*']).getD 0
                if cm.2.1 then
                  match matchWordOnly rest with
                  | some idw =>
                    ([⟨.CHOICE_ID, String.mk trimmed,
                       makeRange lineNum startIdx line.length,
                       { choiceLevel := some cm.1, choiceId := some (String.mk idw),
                         isHidden := some true }⟩],
                     [], [.CHOICE])
                  | none =>
                    if rest = [] then
                      ([],
                       [⟨"Hidden choice marker *= requires an ID",
                         makeRange lineNum startIdx line.length,
                         Severity.error, some "missing-choice-id"⟩],
                       [.CHOICE])
                    else
                      ([⟨.CHOICE_ID, String.mk trimmed,
                         makeRange lineNum startIdx line.length,
                         { choiceLevel := some cm.1,
                           choiceId := some (String.mk (rest.takeWhile (fun c => !(isWS c)))),
                           isHidden := some true }⟩],
                       [], [.CHOICE])
                else
                  ([⟨.CHOICE, String.mk trimmed,
                     makeRange lineNum startIdx line.length,
                     { choiceLevel := some cm.1 }⟩],
                   [], [.CHOICE])
              | none =>
                if matchPageBreak trimmed then
                  let startIdx := (jsIndexOf line ['-']).getD 0
                  ([⟨.PAGE_BREAK, "-", makeRange lineNum startIdx (startIdx + 1), {}⟩],
                   [], [.PAGE_BREAK])
                else
                  ([⟨.TEXT, String.mk line, makeRange lineNum 0 line.length, {}⟩],
                   validateBracketExpressions line lineNum,
                   [.TEXT])

/-- `Lexer.tokenizeLine`: block-comment handling first, then the
dispatch chain; returns the new state and the tokens/errors/line types
pushed for this line. -/
def tokenizeLine (st : LexState) (lineNum : Nat) (line : List Char) :
    LexState × List Token × List ParseError × List LineType :=
  let trimmed := jsTrim line
  if st.inBlockComment then
    match jsIndexOf line ['*', '/'] with
    | some endIdx =>
      let restOfLine := line.drop (endIdx + 2)
      (⟨false, none⟩,
       ⟨.COMMENT_BLOCK_END, "*/", makeRange lineNum endIdx (endIdx + 2), {}⟩ ::
         (if jsTrim restOfLine ≠ [] then
            tokenizeLineContent lineNum (endIdx + 2) restOfLine
          else []),
       [], [.COMMENT])
    | none => (st, [], [], [.IN_BLOCK_COMMENT])
  else if trimmed.isEmpty then (st, [], [], [.EMPTY])
  else
    match jsIndexOf line ['/', '*'] with
    | some bs =>
      match jsIndexOfFrom line ['*', '/'] (bs + 2) with
      | none =>
        (⟨true, some ⟨lineNum, bs⟩⟩,
         [⟨.COMMENT_BLOCK_START, "/*", makeRange lineNum bs (bs + 2), {}⟩],
         [], [.COMMENT])
      | some _ =>
        -- block comment opened and closed on one line: fall through
        (st, tokenizeLineRest lineNum line trimmed)
    | none => (st, tokenizeLineRest lineNum line trimmed)

/-- Result record of the lexer. -/
structure LexerResult where
  tokens : List Token
  errors : List ParseError
  lineTypes : List LineType
deriving Repr

/-- The line loop of `Lexer.tokenize`, threading the comment state. -/
def lexLinesAux : List (List Char) → Nat → LexState →
    LexState × List Token × List ParseError × List LineType
  | [], _, st => (st, [], [], [])
  | l :: rest, n, st =>
    let r1 := tokenizeLine st n l
    let r2 := lexLinesAux rest (n + 1) r1.1
    (r2.1, r1.2.1 ++ r2.2.1, r1.2.2.1 ++ r2.2.2.1, r1.2.2.2 ++ r2.2.2.2)

/-- `Lexer.tokenize`: run all lines, report a still-open block comment,
append the synthetic EOF token. -/
def tokenize (text : String) : LexerResult :=
  let lines := splitLines text.data
  let r := lexLinesAux lines 0 ⟨false, none⟩
  let lastLine := lines.length - 1
  let lastChar := (lines.getLastD []).length
  let commentErr :=
    match r.1.inBlockComment, r.1.blockCommentStart with
    | true, some p =>
      [⟨"Unclosed block comment", ⟨p, ⟨lastLine, lastChar⟩⟩,
        Severity.error, some "unclosed-comment"⟩]
    | _, _ => []
  ⟨r.2.1 ++ [⟨.EOF, "", makeRange lastLine lastChar lastChar, {}⟩],
   r.2.2.1 ++ commentErr,
   r.2.2.2⟩

/-! ## Parser (tree builder)

The source mutates `ChoiceNode` objects through aliased references
(`currentChoice`, `choiceStack`, the tree).  The pure model therefore
keeps every choice in an arena (`List ChoiceData`, children as arena
indices, each child index larger than its parent's) and materializes
the node tree when a story is closed.  `parseStory`'s token loop
becomes the step function `stepStoryToken`; the two nested `while`
loops of `parse`/`parseStory` become the single token fold `parseFold`,
whose `cur` field is `some st` exactly while the source is inside
`parseStory` (once the first story opens, every later token is consumed
by some `parseStory`, so the top-level handling only applies before the
first header). -/

/-- `ChoiceIdNode`. -/
structure ChoiceIdNode where
  id : String
  range : Range
  isHidden : Bool
deriving DecidableEq, Repr

/-- `JumpNode`. -/
structure JumpNode where
  target : String
  range : Range
  jumpType : JumpType
deriving DecidableEq, Repr

/-- `TildeCommandNode` (the `command` union is kept as a string). -/
structure TildeCommandNode where
  command : String
  expression : String
  range : Range
deriving DecidableEq, Repr

/-- Arena record for one `ChoiceNode` under construction: `children`
holds arena indices. -/
structure ChoiceData where
  level : Nat
  text : String
  range : Range
  id : Option ChoiceIdNode
  requirements : List TildeCommandNode
  mutations : List TildeCommandNode
  jumps : List JumpNode
  children : List Nat
  pageBreaks : List Range
deriving DecidableEq, Repr

/-- Materialized `ChoiceNode` tree. -/
inductive ChoiceNode where
  | mk : Nat → String → Range → Option ChoiceIdNode → List TildeCommandNode →
      List TildeCommandNode → List JumpNode → List ChoiceNode → List Range → ChoiceNode
deriving Repr

/-- Nesting level of a choice node. -/
def ChoiceNode.level : ChoiceNode → Nat
  | .mk l _ _ _ _ _ _ _ _ => l

/-- Display text of a choice node. -/
def ChoiceNode.text : ChoiceNode → String
  | .mk _ s _ _ _ _ _ _ _ => s

/-- Jumps of a choice node. -/
def ChoiceNode.jumps : ChoiceNode → List JumpNode
  | .mk _ _ _ _ _ _ js _ _ => js

/-- Children of a choice node. -/
def ChoiceNode.children : ChoiceNode → List ChoiceNode
  | .mk _ _ _ _ _ _ _ cs _ => cs

/-- `StoryNode`.  Besides the materialized `choices` forest, the model
also keeps the arena (`arena`/`roots`) it was built from, as the
construction view of the same tree. -/
structure StoryNode where
  id : String
  range : Range
  headerRange : Range
  requirements : List TildeCommandNode
  mutations : List TildeCommandNode
  choices : List ChoiceNode
  choiceIds : List (String × ChoiceIdNode)
  arena : List ChoiceData
  roots : List Nat
deriving Repr

/-- `story.choiceIds.get(k)` on the insertion-ordered map. -/
def lookupCI (m : List (String × ChoiceIdNode)) (k : String) : Option ChoiceIdNode :=
  (m.find? (fun p => p.1 == k)).map (fun p => p.2)

/-- `story.choiceIds.set(k, v)`: replace if present, else append. -/
def setCI (m : List (String × ChoiceIdNode)) (k : String) (v : ChoiceIdNode) :
    List (String × ChoiceIdNode) :=
  if (m.find? (fun p => p.1 == k)).isSome then
    m.map (fun p => if p.1 == k then (k, v) else p)
  else m ++ [(k, v)]

/-- Apply `f` to the `i`-th element of a list (identity out of range). -/
def updateAt {α : Type} : List α → Nat → (α → α) → List α
  | [], _, _ => []
  | a :: rest, 0, f => f a :: rest
  | a :: rest, n + 1, f => a :: updateAt rest n f

/-- `Parser.parseTildeCommand`: re-match the token text against the
tilde regex. -/
def parseTildeCommand (t : Token) : TildeCommandNode :=
  match matchTilde t.value.data with
  | some m => ⟨String.mk (lowerStr m.1), String.mk m.2, t.range⟩
  | none => ⟨"unknown", "", t.range⟩

/-- Group 1 of `/^\*+\s*(.*)$/` on the token text (`''` when the match
fails). -/
def choiceTextOf (v : List Char) : List Char :=
  match v with
  | '*' :: _ =>
    let r := (v.dropWhile (fun c => c == '*')).dropWhile isWS
    if r.all isDotChar then r else []
  | _ => []

/-- `Parser.parseChoice`. -/
def parseChoice (t : Token) : ChoiceData :=
  { level := jsOrNat t.data.choiceLevel 1,
    text := String.mk (choiceTextOf t.value.data),
    range := t.range,
    id := none, requirements := [], mutations := [], jumps := [],
    children := [], pageBreaks := [] }

/-- `Parser.parseChoiceId`. -/
def parseChoiceId (t : Token) : ChoiceIdNode :=
  { id := jsOrStr t.data.choiceId "unknown",
    range := t.range,
    isHidden := jsOrBool t.data.isHidden false }

/-- `Parser.parseJump`. -/
def parseJump (t : Token) : JumpNode :=
  { target := jsOrStr t.data.targetId "",
    range := t.range,
    jumpType := t.data.jumpType.getD JumpType.normal }

/-- In-progress story (`parseStory`'s locals plus the story object under
construction).  The stack holds arena indices, top at the end, like the
JS array. -/
structure StoryState where
  id : String
  headerToken : Token
  lastTok : Token
  requirements : List TildeCommandNode
  mutations : List TildeCommandNode
  arena : List ChoiceData
  roots : List Nat
  choiceIds : List (String × ChoiceIdNode)
  choiceStack : List Nat
  currentChoice : Option Nat
deriving Repr

/-- Open a new story on its header token: seed the `start` pseudo-entry
pointing at the header (hidden), empty tree, empty stack. -/
def initStory (headerToken : Token) : StoryState :=
  { id := jsOrStr headerToken.data.storyId "unknown",
    headerToken := headerToken,
    lastTok := headerToken,
    requirements := [], mutations := [],
    arena := [], roots := [],
    choiceIds := setCI [] "start" ⟨"start", headerToken.range, true⟩,
    choiceStack := [], currentChoice := none }

/-- One iteration of `parseStory`'s token loop (the `switch` on the
token type), returning the new state and the errors pushed. -/
def stepStoryToken (st : StoryState) (t : Token) : StoryState × List ParseError :=
  match t.type with
  | .TILDE_IF | .TILDE_IFD =>
    let reqNode := parseTildeCommand t
    match st.currentChoice with
    | some i =>
      ({ st with arena := updateAt st.arena i
                   (fun cd => { cd with requirements := cd.requirements ++ [reqNode] }),
                 lastTok := t }, [])
    | none => ({ st with requirements := st.requirements ++ [reqNode], lastTok := t }, [])
  | .TILDE_SET | .TILDE_SETIF | .TILDE_CALL | .TILDE_CALLIF | .TILDE_ONCE =>
    let mutNode := parseTildeCommand t
    match st.currentChoice with
    | some i =>
      ({ st with arena := updateAt st.arena i
                   (fun cd => { cd with mutations := cd.mutations ++ [mutNode] }),
                 lastTok := t }, [])
    | none => ({ st with mutations := st.mutations ++ [mutNode], lastTok := t }, [])
  | .TILDE_DISABLED => ({ st with lastTok := t }, [])
  | .CHOICE =>
    let choiceNode := parseChoice t
    let level := jsOrNat t.data.choiceLevel 1
    let idx := st.arena.length
    if level = 1 then
      ({ st with arena := st.arena ++ [choiceNode], roots := st.roots ++ [idx],
                 choiceStack := [idx], currentChoice := some idx, lastTok := t }, [])
    else
      let stack1 := st.choiceStack.take (level - 1)
      match stack1.getLast? with
      | some parent =>
        ({ st with arena := updateAt (st.arena ++ [choiceNode]) parent
                     (fun cd => { cd with children := cd.children ++ [idx] }),
                   choiceStack := stack1 ++ [idx], currentChoice := some idx,
                   lastTok := t }, [])
      | none =>
        ({ st with arena := st.arena ++ [choiceNode], roots := st.roots ++ [idx],
                   choiceStack := stack1 ++ [idx], currentChoice := some idx,
                   lastTok := t },
         [⟨"Choice level " ++ toString level ++ " has no parent choice", t.range,
           Severity.error, some "orphaned-choice"⟩])
  | .CHOICE_ID =>
    let choiceIdNode := parseChoiceId t
    let dup := (lookupCI st.choiceIds choiceIdNode.id).isSome
    let ids1 := if dup then st.choiceIds else setCI st.choiceIds choiceIdNode.id choiceIdNode
    let errs1 : List ParseError :=
      if dup then
        [⟨"Duplicate choice ID: " ++ choiceIdNode.id, t.range,
          Severity.error, some "duplicate-choice-id"⟩]
      else []
    if choiceIdNode.isHidden then
      let hiddenChoice : ChoiceData :=
        { level := jsOrNat t.data.choiceLevel 1, text := "", range := t.range,
          id := some choiceIdNode, requirements := [], mutations := [], jumps := [],
          children := [], pageBreaks := [] }
      let idx := st.arena.length
      ({ st with choiceIds := ids1, arena := st.arena ++ [hiddenChoice],
                 roots := st.roots ++ [idx], choiceStack := [idx],
                 currentChoice := some idx, lastTok := t }, errs1)
    else
      match st.currentChoice with
      | some i =>
        ({ st with choiceIds := ids1,
                   arena := updateAt st.arena i (fun cd => { cd with id := some choiceIdNode }),
                   lastTok := t }, errs1)
      | none => ({ st with choiceIds := ids1, lastTok := t }, errs1)
  | .JUMP =>
    let jumpNode := parseJump t
    match st.currentChoice with
    | some i =>
      ({ st with arena := updateAt st.arena i
                   (fun cd => { cd with jumps := cd.jumps ++ [jumpNode] }),
                 lastTok := t }, [])
    | none =>
      ({ st with lastTok := t },
       [⟨"Jump found outside of a choice", t.range, Severity.warning,
         some "orphaned-jump"⟩])
  | .PAGE_BREAK =>
    match st.currentChoice with
    | some i =>
      ({ st with arena := updateAt st.arena i
                   (fun cd => { cd with pageBreaks := cd.pageBreaks ++ [t.range] }),
                 lastTok := t }, [])
    | none => ({ st with lastTok := t }, [])
  | _ => ({ st with lastTok := t }, [])

/-- Materialize the node at arena index `i`.  Children always carry a
strictly larger arena index than their parent (they are created later),
so chains are bounded by the arena size and `fuel := arena.length`
reaches every node; the fuel-exhausted/out-of-range fallback is never
hit on parser-produced arenas. -/
def materializeAux (arena : List ChoiceData) : Nat → Nat → ChoiceNode
  | 0, _ => ChoiceNode.mk 1 "" (makeRange 0 0 0) none [] [] [] [] []
  | fuel + 1, i =>
    match arena.get? i with
    | none => ChoiceNode.mk 1 "" (makeRange 0 0 0) none [] [] [] [] []
    | some cd =>
      ChoiceNode.mk cd.level cd.text cd.range cd.id cd.requirements cd.mutations
        cd.jumps (cd.children.map (fun j => materializeAux arena fuel j)) cd.pageBreaks

/-- Close a story: final range spans from the header to the last token
consumed by its loop (`this.tokens[this.current - 1] || headerToken`). -/
def finalizeStory (st : StoryState) : StoryNode :=
  { id := st.id,
    range := ⟨st.headerToken.range.start, st.lastTok.range.stop⟩,
    headerRange := st.headerToken.range,
    requirements := st.requirements, mutations := st.mutations,
    choices := st.roots.map (fun i => materializeAux st.arena st.arena.length i),
    choiceIds := st.choiceIds,
    arena := st.arena, roots := st.roots }

/-- `Parser.checkDisabled` inner scan (stop at a story header). -/
def checkDisabledAux : List Token → Bool
  | [] => false
  | t :: rest =>
    if t.type = TokenType.STORY_HEADER then false
    else if t.type = TokenType.TILDE_DISABLED then true
    else checkDisabledAux rest

/-- `Parser.checkDisabled`: look for `~disabled` among the first 10
tokens, before any story header. -/
def checkDisabled (toks : List Token) : Bool :=
  checkDisabledAux (toks.take 10)

/-- Parser loop state: finished stories, accumulated errors, and the
story currently being parsed (if any). -/
structure PState where
  stories : List StoryNode
  errors : List ParseError
  cur : Option StoryState
deriving Repr

/-- The fused main loop of `Parser.parse`/`Parser.parseStory` over the
token list; `pos` is the index of the head token (`this.current`). -/
def parseFold (isDisabled : Bool) : List Token → Nat → PState → PState
  | [], _, ps =>
    match ps.cur with
    | some st => { ps with stories := ps.stories ++ [finalizeStory st], cur := none }
    | none => ps
  | t :: rest, pos, ps =>
    match ps.cur with
    | some st =>
      match t.type with
      | .STORY_HEADER =>
        parseFold isDisabled rest (pos + 1)
          { ps with stories := ps.stories ++ [finalizeStory st], cur := some (initStory t) }
      | .EOF => { ps with stories := ps.stories ++ [finalizeStory st], cur := none }
      | _ =>
        let r := stepStoryToken st t
        parseFold isDisabled rest (pos + 1)
          { ps with errors := ps.errors ++ r.2, cur := some r.1 }
    | none =>
      match t.type with
      | .STORY_HEADER =>
        parseFold isDisabled rest (pos + 1) { ps with cur := some (initStory t) }
      | .TILDE_DISABLED =>
        let es : List ParseError :=
          if 0 < pos then
            [⟨"~disabled should be on the first line of the file", t.range,
              Severity.warning, some "misplaced-disabled"⟩]
          else []
        parseFold isDisabled rest (pos + 1) { ps with errors := ps.errors ++ es }
      | .EOF => ps
      | .TEXT =>
        let es : List ParseError :=
          if ps.stories.isEmpty ∧ ¬ isDisabled ∧ jsTrim t.value.data ≠ [] then
            [⟨"Content found before story header. Expected: === storyID", t.range,
              Severity.warning, some "content-before-story"⟩]
          else []
        parseFold isDisabled rest (pos + 1) { ps with errors := ps.errors ++ es }
      | _ => parseFold isDisabled rest (pos + 1) ps

/-! ## Jump-target resolution -/

/-- `Parser.isSpecialJumpTarget`. -/
def isSpecialJumpTarget (target : String) : Bool :=
  ["start", "end", "back", "backonce", "startonce"].contains
    (String.mk (lowerStr target.data))

/-- `jump.target.split(/\s/)[0]`. -/
def firstWord (s : String) : String :=
  String.mk (s.data.takeWhile (fun c => !(isWS c)))

/-- The tail `\s+(\w+)\s*:\s*(\w+)$` of the conditional-jump regex
(deterministic: `\s`, `\w` and `:` are pairwise disjoint classes). -/
def tailCondMatch (s : List Char) : Option (String × String) :=
  let ws1 := s.takeWhile isWS
  if ws1 = [] then none
  else
    let s1 := s.drop ws1.length
    let a := s1.takeWhile isWordChar
    if a = [] then none
    else
      match (s1.drop a.length).dropWhile isWS with
      | ':' :: s3 =>
        let s4 := s3.dropWhile isWS
        let b := s4.takeWhile isWordChar
        if b = [] then none
        else if s4.drop b.length = [] then some (String.mk a, String.mk b) else none
      | _ => none

/-- Search for the `?` of `/^if\s+.+\s+\?\s+(\w+)\s*:\s*(\w+)$/` at
positions `j, j-1, ...`: the greedy `.+` makes the engine commit to the
rightmost `?` that is preceded by whitespace, leaves room for
`\s+.+\s+` after the anchored `if` (positions 2..j-1, hence `5 ≤ j`,
with `s[2]` and `s[j-1]` whitespace), and whose tail matches. -/
def condSearch (s : List Char) : Nat → Option (String × String)
  | 0 => none
  | j + 1 =>
    if 5 ≤ j + 1 ∧ s.get? (j + 1) = some '?' ∧ (s.get? j).any isWS then
      match tailCondMatch (s.drop (j + 2)) with
      | some r => some r
      | none => condSearch s j
    else condSearch s j

/-- `/^if\s+.+\s+\?\s+(\w+)\s*:\s*(\w+)$/` on a (single-line) jump
target: the two captured identifiers of a conditional jump.  Jump
targets are produced from single lines, so `.` is modelled as any
character. -/
def matchConditional (s : List Char) : Option (String × String) :=
  match s with
  | 'i' :: 'f' :: c :: _ => if isWS c then condSearch s (s.length - 1) else none
  | _ => none

/-- The "Unknown jump target" warning. -/
def unknownTargetErr (target : String) (r : Range) : ParseError :=
  ⟨"Unknown jump target: " ++ target, r, Severity.warning, some "unknown-jump-target"⟩

/-- Resolution of one jump against a story's identifier map (the body of
the per-jump loop in `Parser.validateJumpsInStory`). -/
def resolveJump (ids : List (String × ChoiceIdNode)) (j : JumpNode) : List ParseError :=
  if j.target = "" then []
  else
    match matchConditional j.target.data with
    | some ab =>
      (if (lookupCI ids ab.1).isSome ∨ isSpecialJumpTarget ab.1 then []
       else [unknownTargetErr ab.1 j.range]) ++
      (if (lookupCI ids ab.2).isSome ∨ isSpecialJumpTarget ab.2 then []
       else [unknownTargetErr ab.2 j.range])
    | none =>
      let target := firstWord j.target
      if (lookupCI ids target).isSome ∨ isSpecialJumpTarget target then []
      else [unknownTargetErr target j.range]

mutual

/-- `validateChoice` of `Parser.validateJumpsInStory`: resolve the
choices' jumps, then recurse into the children. -/
def validateChoiceJumps (ids : List (String × ChoiceIdNode)) : ChoiceNode → List ParseError
  | ChoiceNode.mk _ _ _ _ _ _ jumps children _ =>
    (jumps.map (fun j => resolveJump ids j)).flatten ++ validateChoiceListJumps ids children

/-- Fold of `validateChoiceJumps` over a list of choices. -/
def validateChoiceListJumps (ids : List (String × ChoiceIdNode)) :
    List ChoiceNode → List ParseError
  | [] => []
  | c :: cs => validateChoiceJumps ids c ++ validateChoiceListJumps ids cs

end

/-- `Parser.validateJumpsInStory`. -/
def validateJumpsInStory (story : StoryNode) : List ParseError :=
  validateChoiceListJumps story.choiceIds story.choices

/-- `DocumentNode`. -/
structure DocumentNode where
  stories : List StoryNode
  errors : List ParseError
  isDisabled : Bool
deriving Repr

/-- `ParserResult`. -/
structure ParserResult where
  document : DocumentNode
  errors : List ParseError
deriving Repr

/-- `Parser.parse` / the exported `parse`: tokenize, detect the disabled
flag, run the story loop, then resolve jump targets across all
stories. -/
def parse (text : String) : ParserResult :=
  let lr := tokenize text
  let disabled := checkDisabled lr.tokens
  let ps := parseFold disabled lr.tokens 0 ⟨[], lr.errors, none⟩
  let errs := ps.errors ++ (ps.stories.map validateJumpsInStory).flatten
  ⟨⟨ps.stories, errs, disabled⟩, errs⟩

/-! ## Bracket-balance validator (`validateBrackets`) -/

/-- A conditional-block frame pushed for an opening `[if ...]`. -/
structure BracketFrame where
  keyword : String
  line : Nat
  character : Nat
deriving DecidableEq, Repr

/-- Comment stripping of one line in `validateBrackets` (its own copy of
the block-comment state machine): close an active block comment or skip
the line (`none`); cut one `/* ... */` (or open a new block comment);
cut a `//` line comment. -/
def stripLineForBrackets (inBC : Bool) (line : List Char) :
    Option (List Char) × Bool :=
  let step1 : Option (List Char) :=
    if inBC then
      match jsIndexOf line ['*', '/'] with
      | some e => some (line.drop (e + 2))
      | none => none
    else some line
  match step1 with
  | none => (none, true)
  | some l1 =>
    let r2 :=
      match jsIndexOf l1 ['/', '*'] with
      | some bs =>
        match jsIndexOfFrom l1 ['*', '/'] (bs + 2) with
        | none => (l1.take bs, true)
        | some be => (l1.take bs ++ l1.drop (be + 2), false)
      | none => (l1, false)
    let l3 :=
      match jsIndexOf r2.1 ['/', '/'] with
      | some ci => r2.1.take ci
      | none => r2.1
    (some l3, r2.2)

/-- All matches of `/\[([^\]]*)\]/g` as (start index, content, match
length): the regex pairs each `[` with the first `]` after it and
resumes after that `]` (an unterminated `[` yields no match). -/
def findBracketsAux : List Char → Nat → Option (Nat × List Char) →
    List (Nat × List Char × Nat)
  | [], _, _ => []
  | c :: rest, pos, none =>
    if c = '[' then findBracketsAux rest (pos + 1) (some (pos, []))
    else findBracketsAux rest (pos + 1) none
  | c :: rest, pos, some st =>
    if c = ']' then
      (st.1, st.2, st.2.length + 2) :: findBracketsAux rest (pos + 1) none
    else findBracketsAux rest (pos + 1) (some (st.1, st.2 ++ [c]))

/-- All bracketed expressions of a (comment-stripped) line. -/
def findBrackets (l : List Char) : List (Nat × List Char × Nat) :=
  findBracketsAux l 0 none

/-- The body of the bracket loop in `validateBrackets`: classify one
bracketed expression and update the frame stack / error list.  The
stack's top is at the end (JS `push`/`pop`). -/
def processBracket (acc : List BracketFrame × List ParseError) (lineNum : Nat)
    (m : Nat × List Char × Nat) : List BracketFrame × List ParseError :=
  let startChar := m.1
  let content := String.mk (lowerStr (jsTrim m.2.1))
  let matchLen := m.2.2
  if strStartsWithS content "if " ∨ content = "if" ∨
      strStartsWithS content "if random" then
    (acc.1 ++ [⟨"if", lineNum, startChar⟩], acc.2)
  else if content = "endif" ∨ content = "end" then
    if acc.1.isEmpty then
      (acc.1,
       acc.2 ++ [⟨"Unexpected [" ++ content ++ "] - no matching [if]",
         makeRange lineNum startChar (startChar + matchLen),
         Severity.error, some "unmatched-endif"⟩])
    else (acc.1.dropLast, acc.2)
  else if content = "else" ∨ strStartsWithS content "else " ∨
      content = "elseif" ∨ strStartsWithS content "elseif " ∨
      content = "or" ∨ strStartsWithS content "or " ∨ content = "|" then
    if acc.1.isEmpty then
      (acc.1,
       acc.2 ++ [⟨"[" ++ String.mk (jsTrim m.2.1) ++ "] outside of [if] block",
         makeRange lineNum startChar (startChar + matchLen),
         Severity.error, some "orphaned-else"⟩])
    else acc
  else acc

/-- The line loop of `validateBrackets`. -/
def validateBracketsAux : List (List Char) → Nat → Bool →
    List BracketFrame × List ParseError → List BracketFrame × List ParseError
  | [], _, _, acc => acc
  | l :: rest, n, inBC, acc =>
    let s := stripLineForBrackets inBC l
    match s.1 with
    | none => validateBracketsAux rest (n + 1) s.2 acc
    | some l2 =>
      validateBracketsAux rest (n + 1) s.2
        ((findBrackets l2).foldl (fun a m => processBracket a n m) acc)

/-- The scan phase of `validateBrackets`: final frame stack and the
errors emitted during scanning. -/
def bracketScan (text : String) : List BracketFrame × List ParseError :=
  validateBracketsAux (splitLines text.data) 0 false ([], [])

/-- The "unclosed [if]" error for one still-open frame, anchored at its
opening location. -/
def mkUnclosedIf (f : BracketFrame) : ParseError :=
  ⟨"Unclosed [if] - missing [endif] or [end]",
    makeRange f.line f.character (f.character + 3),
    Severity.error, some "unclosed-if"⟩

/-- `validateBrackets`: scan all lines, then report one error per frame
still open at end of input. -/
def validateBrackets (text : String) : List ParseError :=
  let r := bracketScan text
  r.2 ++ r.1.map mkUnclosedIf

/-! ## Diagnostics aggregator (`diagnostics.ts`)

The source wraps each stage in `try`/`catch`; the pure model cannot
throw, so the stages are composed directly. -/

/-- LSP diagnostic severities. -/
inductive DiagnosticSeverity where
  | Error
  | Warning
  | Information
  | Hint
deriving DecidableEq, Repr

/-- LSP diagnostic. -/
structure Diagnostic where
  severity : DiagnosticSeverity
  range : Range
  message : String
  source : String
  code : Option String
deriving DecidableEq, Repr

/-- `getSeverity`. -/
def getSeverity : Severity → DiagnosticSeverity
  | .error => .Error
  | .warning => .Warning
  | .info => .Information
  | .hint => .Hint

/-- `convertToDiagnostic` (`convertRange` is the identity here). -/
def convertToDiagnostic (e : ParseError) : Diagnostic :=
  ⟨getSeverity e.severity, e.range, e.message, "exoscript", e.code⟩

/-- The typo lookup table of `additionalValidation`. -/
def typoMap : List (String × String) :=
  [("iff", "if"), ("fi", "if"), ("ifdd", "ifd"), ("sett", "set"),
   ("setiff", "setif"), ("calll", "call"), ("calliff", "callif"),
   ("disable", "disabled"), ("disabeld", "disabled")]

/-- `typoMap[cmd]`. -/
def typoLookup (cmd : String) : Option String :=
  (typoMap.find? (fun p => p.1 == cmd)).map (fun p => p.2)

/-- `validPrefixes` of check 5. -/
def validPrefixes : List String :=
  ["var_", "mem_", "hog_", "skill_", "love_", "story_", "call_", "plot_"]

/-- `knownTypes` of check 5. -/
def knownTypes : List String :=
  ["age", "season", "month", "job", "location", "chara", "repeat", "random",
   "mapspot", "biome", "status", "once", "first", "bg", "left", "right",
   "midleft", "midright", "speaker", "sprite"]

/-- All matches of `/\b([a-z]+_\w+)\b/g` in a line: at a position with a
word boundary before it, greedily take `[a-z]+`, require `_`, greedily
take `\w+` (the trailing `\b` is automatic after a maximal `\w+` run);
on failure advance one position, on success resume after the match.
`fuel` only bounds the recursion (each step consumes at least one
character, so `line.length` suffices). -/
def findVarsAux : Nat → List Char → Bool → List (List Char)
  | 0, _, _ => []
  | _, [], _ => []
  | fuel + 1, c :: rest, prevWord =>
    if !prevWord && c.isLower then
      let lows := (c :: rest).takeWhile Char.isLower
      match (c :: rest).drop lows.length with
      | '_' :: after2 =>
        let wrest := after2.takeWhile isWordChar
        if wrest = [] then findVarsAux fuel rest (isWordChar c)
        else (lows ++ '_' :: wrest) :: findVarsAux fuel (after2.drop wrest.length) true
      | _ => findVarsAux fuel rest (isWordChar c)
    else findVarsAux fuel rest (isWordChar c)

/-- `line.match(/\b([a-z]+_\w+)\b/g)`. -/
def findVars (line : List Char) : List (List Char) :=
  findVarsAux line.length line false

/-- Check 5 for one matched variable name: flag unknown prefixes outside
the `validPrefixes` whitelist and the `knownTypes` exceptions. -/
def varDiag (lineNum : Nat) (line v : List Char) : List Diagnostic :=
  let pfx := String.mk (v.takeWhile (fun c => c != '_') ++ ['_'])
  let before := String.mk (v.takeWhile (fun c => c != '_'))
  if validPrefixes.contains pfx then []
  else if knownTypes.contains before then []
  else
    let vi := (jsIndexOf line v).getD 0
    [⟨.Hint, makeRange lineNum vi (vi + v.length),
      "Unknown variable prefix: " ++ pfx ++
        ". Common prefixes: var_, mem_, hog_, skill_, love_, story_",
      "exoscript", some "unknown-prefix"⟩]

/-- The per-line body of `additionalValidation` (checks 1–6 in source
order). -/
def additionalValidationLine (lineNum : Nat) (line : List Char) : List Diagnostic :=
  let trimmed := jsTrim line
  let tildeWord : Option (List Char) :=
    match trimmed with
    | '~' :: rest =>
      let w := rest.takeWhile isWordChar
      if w = [] then none else some w
    | _ => none
  let d1 :=
    match tildeWord with
    | some w =>
      let cmd := String.mk (lowerStr w)
      match typoLookup cmd with
      | some correct =>
        let ti := (jsIndexOf line ['~']).getD 0
        [⟨.Error, makeRange lineNum ti (ti + cmd.length + 1),
          "Did you mean ~" ++ correct ++ "?", "exoscript", some "typo"⟩]
      | none => []
    | none => []
  let d2 :=
    if (line.count '"') % 2 ≠ 0 then
      [⟨.Hint, makeRange lineNum 0 line.length,
        "Unmatched quote - intentional if dialogue continues", "exoscript",
        some "unmatched-quote"⟩]
    else []
  -- `/^(\*+)\s*$/` on the trimmed line: trimming removed any trailing
  -- whitespace, so this is exactly "non-empty and all stars".
  let d3 :=
    if trimmed ≠ [] ∧ trimmed.all (fun c => c == '*') then
      [⟨.Warning, makeRange lineNum ((jsIndexOf line ['*']).getD 0) line.length,
        "Empty choice text - use *= for hidden choices", "exoscript",
        some "empty-choice"⟩]
    else []
  let d4 :=
    if trimmed = ['=', '=', '='] then
      let ei := (jsIndexOf line ['=', '=', '=']).getD 0
      [⟨.Error, makeRange lineNum ei (ei + 3),
        "Story header requires an ID: === storyID", "exoscript",
        some "missing-story-id"⟩]
    else []
  let d5 :=
    match tildeWord with
    | some w =>
      let cmd := String.mk (lowerStr w)
      if cmd = "if" ∨ cmd = "ifd" ∨ cmd = "set" ∨ cmd = "setif" then
        ((findVars line).map (fun v => varDiag lineNum line v)).flatten
      else []
    | none => []
  let d6 :=
    match tildeWord with
    | some w =>
      let cmd := String.mk (lowerStr w)
      if cmd = "if" ∨ cmd = "ifd" then
        let e1 :=
          match jsIndexOf line ['=', ' ', '='] with
          | some i =>
            [⟨.Warning, makeRange lineNum i (i + 3),
              "Space in operator - did you mean == or =?", "exoscript",
              some "spaced-operator"⟩]
          | none => []
        let amp := jsIndexOf line ['&', ' ', '&']
        let pipe := jsIndexOf line ['|', ' ', '|']
        let e2 :=
          if amp.isSome ∨ pipe.isSome then
            let opc : List Char :=
              if amp.isSome then ['&', ' ', '&'] else ['|', ' ', '|']
            let correct := if amp.isSome then "&&" else "||"
            let oi := (jsIndexOf line opc).getD 0
            [⟨.Warning, makeRange lineNum oi (oi + 3),
              "Space in operator - did you mean " ++ correct ++ "?", "exoscript",
              some "spaced-operator"⟩]
          else []
        e1 ++ e2
      else []
    | none => []
  d1 ++ d2 ++ d3 ++ d4 ++ d5 ++ d6

/-- `additionalValidation`. -/
def additionalValidation (text : String) : List Diagnostic :=
  ((splitLines text.data).enum.map
    (fun p => additionalValidationLine p.1 p.2)).flatten

/-- `analyzeDiagnostics`: parse, convert parse errors, add the
disabled-file information diagnostic, convert bracket errors, run the
lint checks. -/
def analyzeDiagnostics (text : String) : List Diagnostic :=
  let pr := parse text
  let d1 := pr.errors.map convertToDiagnostic
  let d2 :=
    if pr.document.isDisabled then
      [⟨.Information, makeRange 0 0 9, "This file is disabled with ~disabled",
        "exoscript", none⟩]
    else []
  let d3 := (validateBrackets text).map convertToDiagnostic
  let d4 := additionalValidation text
  d1 ++ d2 ++ d3 ++ d4

/-! ## Lemmas about the paren scan -/

theorem parenScan_found (mk : Nat → ParseError) (l : List Char) :
    ∀ (i : Nat) (c : Int), parenScan mk l i c true = (c + netParen l, []) := by
  induction l with
  | nil => intro i c; simp [parenScan, netParen]
  | cons x rest ih =>
    intro i c
    simp only [parenScan, ih, netParen]
    norm_num
    ring

theorem parenScan_nonneg (mk : Nat → ParseError) (l : List Char) :
    ∀ (i : Nat) (c : Int), (∀ k, 0 ≤ c + netParen (l.take k)) →
      parenScan mk l i c false = (c + netParen l, []) := by
  induction l with
  | nil => intro i c _; simp [parenScan, netParen]
  | cons x rest ih =>
    intro i c h
    have h1 : 0 ≤ c + parenDelta x := by
      have := h 1
      simpa [netParen] using this
    have h2 : ∀ k, 0 ≤ (c + parenDelta x) + netParen (rest.take k) := by
      intro k
      have := h (k + 1)
      simp only [List.take_succ_cons, netParen] at this
      linarith
    simp only [parenScan]
    rw [if_neg (by intro hcon; exact absurd h1 (not_le.mpr hcon.1))]
    rw [ih (i + 1) (c + parenDelta x) h2]
    simp [netParen]
    ring

theorem parenScan_bad (mk : Nat → ParseError) (l : List Char) :
    ∀ (i : Nat) (c : Int) (j : Nat), 0 ≤ c →
      c + netParen (l.take (j + 1)) < 0 →
      (∀ k < j, 0 ≤ c + netParen (l.take (k + 1))) →
      parenScan mk l i c false = (netParen (l.drop (j + 1)), [mk (i + j)]) := by
  induction l with
  | nil =>
    intro i c j hc hneg _
    simp [netParen] at hneg
    omega
  | cons x rest ih =>
    intro i c j hc hneg hmin
    cases j with
    | zero =>
      have h1 : c + parenDelta x < 0 := by
        simpa [netParen] using hneg
      simp only [parenScan]
      rw [if_pos ⟨h1, trivial⟩]
      simp [parenScan_found]
    | succ j =>
      have h1 : 0 ≤ c + parenDelta x := by
        have := hmin 0 (Nat.succ_pos j)
        simpa [netParen] using this
      have h2 : (c + parenDelta x) + netParen (rest.take (j + 1)) < 0 := by
        simp only [List.take_succ_cons, netParen] at hneg
        linarith
      have h3 : ∀ k < j, 0 ≤ (c + parenDelta x) + netParen (rest.take (k + 1)) := by
        intro k hk
        have := hmin (k + 1) (by omega)
        simp only [List.take_succ_cons, netParen] at this
        linarith
      simp only [parenScan]
      rw [if_neg (by intro hcon; exact absurd h1 (not_le.mpr hcon.1))]
      rw [ih (i + 1) (c + parenDelta x) j h1 h2 h3]
      simp only [List.drop_succ_cons]
      rw [show i + (j + 1) = i + 1 + j by omega]

/-! ## Claim C2: parenthesis balance of directive expressions -/

/-- C2: for every `~if`/`~ifd` (and `~set`/`~setif`) directive
expression (scanned after trimming): (A) if every prefix has at least
as many `(` as `)` and the net count is zero, no unbalanced-parenthesis
diagnostic is produced; (B) if position `j` is the first offending
close (the first index where the running count goes negative), an
unbalanced-parenthesis error is reported at exactly offset
`startOffset + j`, the counter is reset, and the only further possible
diagnostic is the end-of-expression "missing )" computed from the
post-reset counter (the net count of the remaining suffix); (C) with no
offending close but a net-positive count of unclosed `(`, exactly one
"missing )" error spanning the whole trimmed expression is produced;
(D) `validateTildeCommand` routes `if`/`ifd` expressions into the
condition validator and `set`/`setif` expressions into the set
validator at offset `startIdx + cmd.length + 2`. -/
theorem claim_C2_paren_balance :
    (∀ (expr : List Char) (ln so : Nat),
      (∀ k, 0 ≤ netParen ((jsTrim expr).take k)) → netParen (jsTrim expr) = 0 →
      validateConditionExpression expr ln so = [] ∧
        validateSetExpression expr ln so = []) ∧
    (∀ (expr : List Char) (ln so j : Nat),
      netParen ((jsTrim expr).take (j + 1)) < 0 →
      (∀ k < j, 0 ≤ netParen ((jsTrim expr).take (k + 1))) →
      validateConditionExpression expr ln so =
        mkUnbalancedCond ln so j ::
          (if 0 < netParen ((jsTrim expr).drop (j + 1)) then
            [mkMissingClose ln so (jsTrim expr).length] else []) ∧
      validateSetExpression expr ln so =
        mkUnbalancedSet ln so j ::
          (if 0 < netParen ((jsTrim expr).drop (j + 1)) then
            [mkMissingClose ln so (jsTrim expr).length] else [])) ∧
    (∀ (expr : List Char) (ln so : Nat),
      (∀ k, 0 ≤ netParen ((jsTrim expr).take k)) → 0 < netParen (jsTrim expr) →
      validateConditionExpression expr ln so =
        [mkMissingClose ln so (jsTrim expr).length] ∧
      validateSetExpression expr ln so =
        [mkMissingClose ln so (jsTrim expr).length]) ∧
    (∀ (e : List Char) (ln si : Nat), jsTrim e ≠ [] →
      validateTildeCommand "if" e ln si = validateConditionExpression e ln (si + 4) ∧
      validateTildeCommand "ifd" e ln si = validateConditionExpression e ln (si + 5) ∧
      validateTildeCommand "set" e ln si = validateSetExpression e ln (si + 5) ∧
      validateTildeCommand "setif" e ln si = validateSetExpression e ln (si + 7)) := by
  refine ⟨?_, ?_, ?_, ?_⟩
  · intro expr ln so hbal hnet
    constructor <;>
      simp [validateConditionExpression, validateSetExpression,
        parenScan_nonneg _ _ 0 0 (by simpa using hbal), hnet]
  · intro expr ln so j hneg hmin
    constructor <;>
    · simp only [validateConditionExpression, validateSetExpression]
      rw [parenScan_bad _ _ 0 0 j le_rfl (by simpa using hneg)
        (by intro k hk; simpa using hmin k hk)]
      simp
  · intro expr ln so hbal hpos
    constructor <;>
    · simp only [validateConditionExpression, validateSetExpression]
      rw [parenScan_nonneg _ _ 0 0 (by simpa using hbal)]
      simp [hpos]
  · intro e ln si hne
    refine ⟨?_, ?_, ?_, ?_⟩ <;>
      simp [validateTildeCommand, hne, String.length]

/-- Prefix-nonnegativity needs checking only up to the length of the
list (longer prefixes coincide with the whole list). -/
theorem netParen_take_all {l : List Char}
    (h : ∀ k ≤ l.length, 0 ≤ netParen (l.take k)) :
    ∀ k, 0 ≤ netParen (l.take k) := by
  intro k
  rcases le_or_lt k l.length with hk | hk
  · exact h k hk
  · rw [List.take_of_length_le (le_of_lt hk)]
    simpa using h l.length le_rfl

/-- Witness for C2 at concrete inputs: `"(x)"` is balanced (clause A),
`"a)("` has its first offending close at index 1 and a net-positive
suffix afterwards (clause B), `"(("` has two unclosed opens (clause C),
and `" x"` is a non-empty expression for the routing clause (D). -/
theorem claim_C2_paren_balance_witness :
    (validateConditionExpression "(x)".data 0 4 = [] ∧
      validateSetExpression "(x)".data 0 4 = []) ∧
    validateConditionExpression "a)(".data 0 4 =
      mkUnbalancedCond 0 4 1 :: [mkMissingClose 0 4 3] ∧
    validateConditionExpression "((".data 0 4 = [mkMissingClose 0 4 2] ∧
    validateTildeCommand "if" " x".data 0 0 =
      validateConditionExpression " x".data 0 4 := by
  refine ⟨?_, ?_, ?_, ?_⟩
  · exact claim_C2_paren_balance.1 "(x)".data 0 4
      (netParen_take_all (by decide)) (by decide)
  · have h := (claim_C2_paren_balance.2.1 "a)(".data 0 4 1 (by decide)
      (by intro k hk; interval_cases k <;> decide)).1
    simpa using h
  · exact (claim_C2_paren_balance.2.2.1 "((".data 0 4
      (netParen_take_all (by decide)) (by decide)).1
  · exact (claim_C2_paren_balance.2.2.2 " x".data 0 0 (by decide)).1

/-! ## Lemmas about the line classifier -/

theorem tokenizeLineContent_no_eof (n off : Nat) (content : List Char) :
    ∀ t ∈ tokenizeLineContent n off content, t.type ≠ TokenType.EOF := by
  unfold tokenizeLineContent
  split <;> simp_all

theorem getTildeTokenType_ne_eof (cmd : String) :
    getTildeTokenType cmd ≠ TokenType.EOF := by
  unfold getTildeTokenType
  (repeat' split) <;> simp

/-- Every branch of the dispatch chain pushes exactly one line type and
never an EOF token. -/
theorem tokenizeLineRest_spec (n : Nat) (line trimmed : List Char) :
    (tokenizeLineRest n line trimmed).2.2.length = 1 ∧
      ∀ t ∈ (tokenizeLineRest n line trimmed).1, t.type ≠ TokenType.EOF := by
  unfold tokenizeLineRest
  (repeat' split) <;> (try simp [getTildeTokenType_ne_eof])
  all_goals (refine ⟨?_, ?_⟩ <;> (repeat' split) <;> simp [getTildeTokenType_ne_eof])

/-- Every call of `tokenizeLine` pushes exactly one line type and never
an EOF token. -/
theorem tokenizeLine_spec (st : LexState) (n : Nat) (line : List Char) :
    (tokenizeLine st n line).2.2.2.length = 1 ∧
      ∀ t ∈ (tokenizeLine st n line).2.1, t.type ≠ TokenType.EOF := by
  simp only [tokenizeLine]
  split
  · split
    · refine ⟨by simp, ?_⟩
      intro t ht
      simp only [List.mem_cons] at ht
      rcases ht with rfl | ht
      · simp
      · split at ht
        · exact tokenizeLineContent_no_eof _ _ _ t ht
        · simp at ht
    · simp
  · split
    · simp
    · split
      · split
        · simp
        · exact tokenizeLineRest_spec _ _ _
      · exact tokenizeLineRest_spec _ _ _

/-- The line loop emits one line type per line and no EOF token. -/
theorem lexLinesAux_spec :
    ∀ (lines : List (List Char)) (n : Nat) (st : LexState),
      (lexLinesAux lines n st).2.2.2.length = lines.length ∧
        ∀ t ∈ (lexLinesAux lines n st).2.1, t.type ≠ TokenType.EOF := by
  intro lines
  induction lines with
  | nil => intro n st; simp [lexLinesAux]
  | cons l rest ih =>
    intro n st
    have h1 := tokenizeLine_spec st n l
    have h2 := ih (n + 1) (tokenizeLine st n l).1
    simp only [lexLinesAux, List.length_append, List.mem_append]
    constructor
    · rw [h1.1, h2.1]
      simp only [List.length_cons]
      omega
    · intro t ht
      rcases ht with ht | ht
      · exact h1.2 t ht
      · exact h2.2 t ht

/-! ## Claim C1: one record per line plus one EOF marker -/

/-- C1: for every input document, the lexer emits exactly one
line-classification record per line of `split(/\r?\n/)` — no line is
ever rejected, since the dispatch chain ends in the plain-text
fallback — plus exactly one synthetic EOF token, which is the last
token of the stream. -/
theorem claim_C1_line_classifier (text : String) :
    (tokenize text).lineTypes.length = (splitLines text.data).length ∧
    ((tokenize text).tokens.filter
      (fun t => t.type == TokenType.EOF)).length = 1 ∧
    ((tokenize text).tokens.map Token.type).getLast? = some TokenType.EOF := by
  have h := lexLinesAux_spec (splitLines text.data) 0 ⟨false, none⟩
  refine ⟨?_, ?_, ?_⟩
  · simpa [tokenize] using h.1
  · have hnil : ((lexLinesAux (splitLines text.data) 0 ⟨false, none⟩).2.1.filter
        (fun t => t.type == TokenType.EOF)) = [] := by
      rw [List.filter_eq_nil_iff]
      intro t ht
      simpa using h.2 t ht
    simp [tokenize, List.filter_append, hnil]
  · simp [tokenize, List.getLast?_concat]

/-! ## Lemmas about the bracket validator -/

theorem processBracket_no_unclosed :
    ∀ (acc : List BracketFrame × List ParseError) (n : Nat)
      (m : Nat × List Char × Nat) (e : ParseError),
      e ∈ (processBracket acc n m).2 → e ∈ acc.2 ∨ e.code ≠ some "unclosed-if" := by
  intro acc n m e he
  simp only [processBracket] at he
  repeat' split at he
  all_goals (try exact Or.inl he)
  all_goals
    (rcases List.mem_append.mp he with h | h
     · exact Or.inl h
     · right
       simp only [List.mem_singleton] at h
       subst h
       simp)

theorem bracketFold_no_unclosed :
    ∀ (ms : List (Nat × List Char × Nat)) (acc : List BracketFrame × List ParseError)
      (n : Nat) (e : ParseError),
      e ∈ (ms.foldl (fun a m => processBracket a n m) acc).2 →
      e ∈ acc.2 ∨ e.code ≠ some "unclosed-if" := by
  intro ms
  induction ms with
  | nil => intro acc n e he; exact Or.inl he
  | cons m rest ih =>
    intro acc n e he
    rcases ih (processBracket acc n m) n e (by simpa using he) with h | h
    · exact processBracket_no_unclosed acc n m e h
    · exact Or.inr h

theorem validateBracketsAux_no_unclosed :
    ∀ (lines : List (List Char)) (n : Nat) (bc : Bool)
      (acc : List BracketFrame × List ParseError) (e : ParseError),
      e ∈ (validateBracketsAux lines n bc acc).2 →
      e ∈ acc.2 ∨ e.code ≠ some "unclosed-if" := by
  intro lines
  induction lines with
  | nil => intro n bc acc e he; exact Or.inl he
  | cons l rest ih =>
    intro n bc acc e he
    simp only [validateBracketsAux] at he
    split at he
    · exact ih _ _ _ e he
    · rcases ih _ _ _ e he with h | h
      · exact bracketFold_no_unclosed _ _ _ e h
      · exact Or.inr h

/-- No error emitted during the scan phase carries the unclosed-block
code; those are added only by the final loop over the remaining
stack. -/
theorem bracketScan_no_unclosed (text : String) :
    ∀ e ∈ (bracketScan text).2, e.code ≠ some "unclosed-if" := by
  intro e he
  rcases validateBracketsAux_no_unclosed _ _ _ _ e he with h | h
  · simp at h
  · exact h

/-! ## Claim C3: conditional-block balance -/

/-- C3: (a) `validateBrackets` is the scan phase followed by exactly one
"unclosed conditional block" error per frame still open at end of input
— the diagnostics carrying the `unclosed-if` code are exactly the image
of the final frame stack, each anchored at its frame's opening location
(so N unclosed opens yield exactly N such diagnostics); (b) a closing
keyword `[endif]`/`[end]` with an empty frame stack yields exactly one
unmatched-close error and no pop, and with a non-empty stack silently
pops; (c) a middle keyword `[else]`/`[elseif]`/`[or]`/`[|]` with an
empty stack yields exactly one "outside of [if] block" error and with a
non-empty stack is accepted silently. -/
theorem claim_C3_bracket_blocks :
    (∀ text : String,
      validateBrackets text =
        (bracketScan text).2 ++ (bracketScan text).1.map mkUnclosedIf ∧
      (validateBrackets text).filter (fun e => e.code == some "unclosed-if") =
        (bracketScan text).1.map mkUnclosedIf ∧
      ∀ f : BracketFrame, mkUnclosedIf f =
        ⟨"Unclosed [if] - missing [endif] or [end]",
          makeRange f.line f.character (f.character + 3),
          Severity.error, some "unclosed-if"⟩) ∧
    (∀ (stack : List BracketFrame) (errors : List ParseError)
      (n sc ml : Nat) (raw : List Char),
      (String.mk (lowerStr (jsTrim raw)) = "endif" ∨
        String.mk (lowerStr (jsTrim raw)) = "end") →
      (stack = [] →
        processBracket (stack, errors) n (sc, raw, ml) =
          (stack, errors ++
            [⟨"Unexpected [" ++ String.mk (lowerStr (jsTrim raw)) ++
                "] - no matching [if]",
              makeRange n sc (sc + ml), Severity.error, some "unmatched-endif"⟩])) ∧
      (stack ≠ [] →
        processBracket (stack, errors) n (sc, raw, ml) = (stack.dropLast, errors))) ∧
    (∀ (stack : List BracketFrame) (errors : List ParseError)
      (n sc ml : Nat) (raw : List Char),
      (String.mk (lowerStr (jsTrim raw)) = "else" ∨
        String.mk (lowerStr (jsTrim raw)) = "elseif" ∨
        String.mk (lowerStr (jsTrim raw)) = "or" ∨
        String.mk (lowerStr (jsTrim raw)) = "|") →
      (stack = [] →
        processBracket (stack, errors) n (sc, raw, ml) =
          (stack, errors ++
            [⟨"[" ++ String.mk (jsTrim raw) ++ "] outside of [if] block",
              makeRange n sc (sc + ml), Severity.error, some "orphaned-else"⟩])) ∧
      (stack ≠ [] →
        processBracket (stack, errors) n (sc, raw, ml) = (stack, errors))) := by
  refine ⟨?_, ?_, ?_⟩
  · intro text
    refine ⟨rfl, ?_, fun f => rfl⟩
    have h1 : (bracketScan text).2.filter
        (fun e => e.code == some "unclosed-if") = [] := by
      rw [List.filter_eq_nil_iff]
      intro e he
      simpa using bracketScan_no_unclosed text e he
    have h2 : ((bracketScan text).1.map mkUnclosedIf).filter
        (fun e => e.code == some "unclosed-if") =
        (bracketScan text).1.map mkUnclosedIf := by
      rw [List.filter_eq_self]
      intro e he
      rcases List.mem_map.mp he with ⟨f, _, rfl⟩
      simp [mkUnclosedIf]
    show ((bracketScan text).2 ++ (bracketScan text).1.map mkUnclosedIf).filter
        (fun e => e.code == some "unclosed-if") = _
    rw [List.filter_append, h1, h2, List.nil_append]
  · intro stack errors n sc ml raw hc
    constructor
    · intro hstack
      subst hstack
      rcases hc with hc | hc <;>
      · simp only [processBracket]
        rw [hc]
        rw [if_neg (by decide), if_pos (by decide), if_pos (by decide)]
    · intro hne
      rcases hc with hc | hc <;>
      · simp only [processBracket]
        rw [hc]
        rw [if_neg (by decide), if_pos (by decide),
          if_neg (by simpa [List.isEmpty_iff] using hne)]
  · intro stack errors n sc ml raw hc
    constructor
    · intro hstack
      subst hstack
      rcases hc with hc | hc | hc | hc <;>
      · simp only [processBracket]
        rw [hc]
        rw [if_neg (by decide), if_neg (by decide), if_pos (by decide),
          if_pos (by decide)]
    · intro hne
      rcases hc with hc | hc | hc | hc <;>
      · simp only [processBracket]
        rw [hc]
        rw [if_neg (by decide), if_neg (by decide), if_pos (by decide),
          if_neg (by simpa [List.isEmpty_iff] using hne)]

/-- Witness for C3 at concrete inputs: the document `"[if a]\n[if b]"`
leaves two frames open and gets exactly two unclosed-block diagnostics
at the opening locations; one `[endif]` against an empty stack yields
the unmatched-close error and against a one-frame stack pops silently;
one `[else]` against an empty stack yields the outside-of-if error and
against a one-frame stack is accepted silently. -/
theorem claim_C3_bracket_blocks_witness :
    ((validateBrackets "[if a]\n[if b]").filter
        (fun e => e.code == some "unclosed-if") =
      [mkUnclosedIf ⟨"if", 0, 0⟩, mkUnclosedIf ⟨"if", 1, 0⟩]) ∧
    processBracket ([], []) 0 (0, "endif".data, 7) =
      ([], [⟨"Unexpected [endif] - no matching [if]", makeRange 0 0 7,
        Severity.error, some "unmatched-endif"⟩]) ∧
    processBracket ([⟨"if", 0, 0⟩], []) 0 (0, "endif".data, 7) = ([], []) ∧
    processBracket ([], []) 0 (0, "else".data, 6) =
      ([], [⟨"[else] outside of [if] block", makeRange 0 0 6,
        Severity.error, some "orphaned-else"⟩]) ∧
    processBracket ([⟨"if", 0, 0⟩], []) 0 (0, "else".data, 6) =
      ([⟨"if", 0, 0⟩], []) := by
  refine ⟨?_, ?_, ?_, ?_, ?_⟩
  · have h := (claim_C3_bracket_blocks.1 "[if a]\n[if b]").2.1
    rw [h]
    have hs : (bracketScan "[if a]\n[if b]").1 = [⟨"if", 0, 0⟩, ⟨"if", 1, 0⟩] := by
      decide
    rw [hs]
    rfl
  · have h := (claim_C3_bracket_blocks.2.1 [] [] 0 0 7 "endif".data
      (Or.inl (by decide))).1 rfl
    simpa using h
  · have h := (claim_C3_bracket_blocks.2.1 [⟨"if", 0, 0⟩] [] 0 0 7 "endif".data
      (Or.inl (by decide))).2 (by simp)
    simpa using h
  · have h := (claim_C3_bracket_blocks.2.2 [] [] 0 0 6 "else".data
      (Or.inl (by decide))).1 rfl
    simpa using h
  · have h := (claim_C3_bracket_blocks.2.2 [⟨"if", 0, 0⟩] [] 0 0 6 "else".data
      (Or.inl (by decide))).2 (by simp)
    simpa using h

/-! ## Claim C4: jump-target resolution -/

/-- C4: after the whole document is parsed, each jump is resolved
against its story's identifier map: (1) a simple (non-conditional)
target whose checked identifier (the first whitespace-separated word)
is in the map or is one of the special pseudo-targets never produces a
diagnostic, and otherwise produces exactly one "Unknown jump target"
diagnostic carrying the jump's range; (2) a conditional-shaped target
resolves its two captured identifiers independently by the same rule;
(3) the special pseudo-targets are exactly `start`, `end`, `back`,
`backonce`, `startonce`, compared case-insensitively; (4) every
diagnostic produced by jump resolution has severity warning (never
error) and carries the jump's range. -/
theorem claim_C4_jump_resolution :
    (∀ (ids : List (String × ChoiceIdNode)) (j : JumpNode),
      j.target ≠ "" → matchConditional j.target.data = none →
      ((lookupCI ids (firstWord j.target)).isSome ∨
          isSpecialJumpTarget (firstWord j.target) →
        resolveJump ids j = []) ∧
      ((lookupCI ids (firstWord j.target)).isNone ∧
          ¬ isSpecialJumpTarget (firstWord j.target) →
        resolveJump ids j =
          [⟨"Unknown jump target: " ++ firstWord j.target, j.range,
            Severity.warning, some "unknown-jump-target"⟩])) ∧
    (∀ (ids : List (String × ChoiceIdNode)) (j : JumpNode) (a b : String),
      j.target ≠ "" → matchConditional j.target.data = some (a, b) →
      resolveJump ids j =
        (if (lookupCI ids a).isSome ∨ isSpecialJumpTarget a then []
         else [unknownTargetErr a j.range]) ++
        (if (lookupCI ids b).isSome ∨ isSpecialJumpTarget b then []
         else [unknownTargetErr b j.range])) ∧
    (∀ s : String, isSpecialJumpTarget s =
      (["start", "end", "back", "backonce", "startonce"] : List String).contains
        (String.mk (lowerStr s.data))) ∧
    (∀ (ids : List (String × ChoiceIdNode)) (j : JumpNode) (e : ParseError),
      e ∈ resolveJump ids j →
      e.severity = Severity.warning ∧ e.range = j.range) := by
  refine ⟨?_, ?_, fun s => rfl, ?_⟩
  · intro ids j hne hcond
    constructor
    · intro hok
      simp only [resolveJump, if_neg hne, hcond]
      rcases hok with hok | hok <;> simp [hok]
    · rintro ⟨hn, hs⟩
      simp only [resolveJump, if_neg hne, hcond]
      rw [if_neg (by simp_all [Option.isNone_iff_eq_none])]
      rfl
  · intro ids j a b hne hcond
    simp only [resolveJump, if_neg hne, hcond]
  · intro ids j e he
    simp only [resolveJump] at he
    repeat' split at he
    all_goals (try simp_all [unknownTargetErr])
    all_goals (rcases he with rfl | rfl <;> exact ⟨rfl, rfl⟩)

/-- Witness for C4 at concrete inputs, against the map holding only the
seeded `start` entry: `start` and (case-insensitive) `BACK` resolve
silently, `nowhere` warns with the jump's range, and the conditional
target `if x = 1 ? start : nope` resolves `start` and `nope`
independently. -/
theorem claim_C4_jump_resolution_witness :
    (resolveJump [("start", ⟨"start", makeRange 0 0 5, true⟩)]
      ⟨"start", makeRange 2 0 7, JumpType.normal⟩ = []) ∧
    (resolveJump [("start", ⟨"start", makeRange 0 0 5, true⟩)]
      ⟨"BACK", makeRange 2 0 6, JumpType.normal⟩ = []) ∧
    (resolveJump [("start", ⟨"start", makeRange 0 0 5, true⟩)]
      ⟨"nowhere", makeRange 2 0 9, JumpType.normal⟩ =
      [⟨"Unknown jump target: nowhere", makeRange 2 0 9,
        Severity.warning, some "unknown-jump-target"⟩]) ∧
    (resolveJump [("start", ⟨"start", makeRange 0 0 5, true⟩)]
      ⟨"if x = 1 ? start : nope", makeRange 6 0 24, JumpType.normal⟩ =
      [unknownTargetErr "nope" (makeRange 6 0 24)]) := by
  refine ⟨?_, ?_, ?_, ?_⟩
  · exact (claim_C4_jump_resolution.1 _ _ (by decide) (by decide)).1
      (Or.inl (by decide))
  · exact (claim_C4_jump_resolution.1 _ _ (by decide) (by decide)).1
      (Or.inr (by decide))
  · exact (claim_C4_jump_resolution.1 _ _ (by decide) (by decide)).2
      ⟨by decide, by decide⟩
  · have h := claim_C4_jump_resolution.2.1
      [("start", ⟨"start", makeRange 0 0 5, true⟩)]
      ⟨"if x = 1 ? start : nope", makeRange 6 0 24, JumpType.normal⟩
      "start" "nope" (by decide) (by decide)
    rw [h]
    rw [if_pos (Or.inl (by decide)), if_neg (by decide)]
    rfl

/-! ## Claim C5: choice-identifier uniqueness -/

/-- The `CHOICE_ID` arm on a duplicate identifier: map unchanged, one
duplicate diagnostic at the token's range. -/
theorem stepStoryToken_dup (st : StoryState) (val : String) (rng : Range)
    (data : TokenData) (idStr : String) (v : ChoiceIdNode)
    (hcid : data.choiceId = some idStr) (hne : idStr ≠ "")
    (hlk : lookupCI st.choiceIds idStr = some v) :
    (stepStoryToken st ⟨TokenType.CHOICE_ID, val, rng, data⟩).1.choiceIds =
      st.choiceIds ∧
    (stepStoryToken st ⟨TokenType.CHOICE_ID, val, rng, data⟩).2 =
      [⟨"Duplicate choice ID: " ++ idStr, rng, Severity.error,
        some "duplicate-choice-id"⟩] := by
  have hids : parseChoiceId ⟨TokenType.CHOICE_ID, val, rng, data⟩ =
      ⟨idStr, rng, jsOrBool data.isHidden false⟩ := by
    simp [parseChoiceId, hcid, jsOrStr, hne]
  simp only [stepStoryToken, hids, hlk]
  (repeat' split) <;> simp_all

/-- C5: registering an identifier that is already present in the
story's map (here: the `CHOICE_ID` arm of the story loop, for a token
carrying that identifier) leaves the map unchanged — the first
registration wins and stays resolvable — and emits exactly one
duplicate-choice-ID diagnostic with severity error attached to the
second occurrence's range. -/
theorem claim_C5_duplicate_choice_id :
    ∀ (st : StoryState) (t : Token) (idStr : String) (v : ChoiceIdNode),
      t.type = TokenType.CHOICE_ID →
      t.data.choiceId = some idStr → idStr ≠ "" →
      lookupCI st.choiceIds idStr = some v →
      (stepStoryToken st t).1.choiceIds = st.choiceIds ∧
      lookupCI (stepStoryToken st t).1.choiceIds idStr = some v ∧
      (stepStoryToken st t).2 =
        [⟨"Duplicate choice ID: " ++ idStr, t.range, Severity.error,
          some "duplicate-choice-id"⟩] := by
  intro st t idStr v hty hcid hne hlk
  obtain ⟨ty, val, rng, data⟩ := t
  simp only at hty hcid
  subst hty
  have hmap := stepStoryToken_dup st val rng data idStr v hcid hne hlk
  exact ⟨hmap.1, by rw [hmap.1, hlk], hmap.2⟩

/-- Witness for C5: in a fresh story (where only `start` is seeded)
whose map already holds `myId`, a second `= myId` registration keeps
the map, keeps `myId` resolving to the first definition, and emits
exactly the one duplicate diagnostic. -/
theorem claim_C5_duplicate_choice_id_witness :
    (stepStoryToken
      { id := "s", headerToken := ⟨.STORY_HEADER, "=== s", makeRange 0 0 5, {}⟩,
        lastTok := ⟨.STORY_HEADER, "=== s", makeRange 0 0 5, {}⟩,
        requirements := [], mutations := [], arena := [], roots := [],
        choiceIds := [("start", ⟨"start", makeRange 0 0 5, true⟩),
          ("myId", ⟨"myId", makeRange 1 0 6, false⟩)],
        choiceStack := [], currentChoice := none }
      ⟨.CHOICE_ID, "= myId", makeRange 2 0 6,
        { choiceId := some "myId", isHidden := some false }⟩).1.choiceIds =
      [("start", ⟨"start", makeRange 0 0 5, true⟩),
        ("myId", ⟨"myId", makeRange 1 0 6, false⟩)] ∧
    (stepStoryToken
      { id := "s", headerToken := ⟨.STORY_HEADER, "=== s", makeRange 0 0 5, {}⟩,
        lastTok := ⟨.STORY_HEADER, "=== s", makeRange 0 0 5, {}⟩,
        requirements := [], mutations := [], arena := [], roots := [],
        choiceIds := [("start", ⟨"start", makeRange 0 0 5, true⟩),
          ("myId", ⟨"myId", makeRange 1 0 6, false⟩)],
        choiceStack := [], currentChoice := none }
      ⟨.CHOICE_ID, "= myId", makeRange 2 0 6,
        { choiceId := some "myId", isHidden := some false }⟩).2 =
      [⟨"Duplicate choice ID: myId", makeRange 2 0 6, Severity.error,
        some "duplicate-choice-id"⟩] := by
  have h := claim_C5_duplicate_choice_id
    { id := "s", headerToken := ⟨.STORY_HEADER, "=== s", makeRange 0 0 5, {}⟩,
      lastTok := ⟨.STORY_HEADER, "=== s", makeRange 0 0 5, {}⟩,
      requirements := [], mutations := [], arena := [], roots := [],
      choiceIds := [("start", ⟨"start", makeRange 0 0 5, true⟩),
        ("myId", ⟨"myId", makeRange 1 0 6, false⟩)],
      choiceStack := [], currentChoice := none }
    ⟨.CHOICE_ID, "= myId", makeRange 2 0 6,
      { choiceId := some "myId", isHidden := some false }⟩
    "myId" ⟨"myId", makeRange 1 0 6, false⟩
    rfl rfl (by decide) (by decide)
  exact ⟨h.1, h.2.2⟩

/-! ## Claim C10: the seeded `start` entry -/

theorem lookupCI_append (m rest : List (String × ChoiceIdNode)) (k : String)
    (h : (lookupCI m k).isSome) :
    lookupCI (m ++ rest) k = lookupCI m k := by
  induction m with
  | nil => simp [lookupCI] at h
  | cons p ms ih =>
    by_cases hp : p.1 == k
    · simp [lookupCI, List.find?_cons, hp]
    · simp only [lookupCI, List.cons_append, List.find?_cons, hp] at h ⊢
      exact ih h

theorem setCI_of_absent (m : List (String × ChoiceIdNode)) (k : String)
    (v : ChoiceIdNode) (h : lookupCI m k = none) :
    setCI m k v = m ++ [(k, v)] := by
  have hf : m.find? (fun p => p.1 == k) = none := by
    simpa [lookupCI] using h
  simp [setCI, hf]

/-- The story-loop step never removes or overwrites an existing map
binding: a key that already resolves keeps resolving to the same
definition. -/
theorem stepStoryToken_lookup_mono (st : StoryState) (t : Token) (k : String)
    (hk : (lookupCI st.choiceIds k).isSome) :
    lookupCI (stepStoryToken st t).1.choiceIds k = lookupCI st.choiceIds k := by
  obtain ⟨ty, val, rng, data⟩ := t
  cases ty <;> simp only [stepStoryToken] <;> (repeat' split) <;> (try rfl)
  all_goals
    (rename_i hdup
     rw [setCI_of_absent _ _ _ (by simpa [Option.isNone_iff_eq_none] using hdup)]
     exact lookupCI_append _ _ _ hk)

/-- C10: every story's map is seeded at the header with a pseudo-entry
under the literal key `start` (hidden, anchored at the header range);
the story loop never removes or overwrites an existing binding, so the
seed persists; and a user `CHOICE_ID` registration of `start` — even
its first occurrence — therefore hits the duplicate check: it emits
exactly one "Duplicate choice ID" error diagnostic at the user line's
range, is not inserted, and `start` keeps resolving to the seeded
entry. -/
theorem claim_C10_start_seeded :
    (∀ ht : Token, (initStory ht).choiceIds =
      [("start", ⟨"start", ht.range, true⟩)]) ∧
    (∀ (st : StoryState) (t : Token) (k : String),
      (lookupCI st.choiceIds k).isSome →
      lookupCI (stepStoryToken st t).1.choiceIds k = lookupCI st.choiceIds k) ∧
    (∀ (st : StoryState) (t : Token) (v : ChoiceIdNode),
      t.type = TokenType.CHOICE_ID → t.data.choiceId = some "start" →
      lookupCI st.choiceIds "start" = some v →
      (stepStoryToken st t).1.choiceIds = st.choiceIds ∧
      lookupCI (stepStoryToken st t).1.choiceIds "start" = some v ∧
      (stepStoryToken st t).2 =
        [⟨"Duplicate choice ID: start", t.range, Severity.error,
          some "duplicate-choice-id"⟩]) := by
  refine ⟨?_, stepStoryToken_lookup_mono, ?_⟩
  · intro ht
    simp [initStory, setCI]
  · intro st t v hty hcid hlk
    obtain ⟨ty, val, rng, data⟩ := t
    simp only at hty hcid
    subst hty
    have hmap := stepStoryToken_dup st val rng data "start" v hcid (by decide) hlk
    exact ⟨hmap.1, by rw [hmap.1, hlk], hmap.2⟩

/-- Witness for C10: in a fresh story seeded from a concrete header, the
very first `= start` line (`CHOICE_ID` token for `start`) yields the
duplicate diagnostic, leaves the map as the seed alone, and `start`
still resolves to the header-anchored entry; the growth clause holds at
a concrete non-`start` step. -/
theorem claim_C10_start_seeded_witness :
    ((initStory ⟨.STORY_HEADER, "=== s", makeRange 0 0 5,
        { storyId := some "s" }⟩).choiceIds =
      [("start", ⟨"start", makeRange 0 0 5, true⟩)]) ∧
    (lookupCI (stepStoryToken
      (initStory ⟨.STORY_HEADER, "=== s", makeRange 0 0 5, { storyId := some "s" }⟩)
      ⟨.CHOICE_ID, "= other", makeRange 1 0 7,
        { choiceId := some "other", isHidden := some false }⟩).1.choiceIds "start" =
      lookupCI (initStory ⟨.STORY_HEADER, "=== s", makeRange 0 0 5,
        { storyId := some "s" }⟩).choiceIds "start") ∧
    ((stepStoryToken
      (initStory ⟨.STORY_HEADER, "=== s", makeRange 0 0 5, { storyId := some "s" }⟩)
      ⟨.CHOICE_ID, "= start", makeRange 1 0 7,
        { choiceId := some "start", isHidden := some false }⟩).1.choiceIds =
      [("start", ⟨"start", makeRange 0 0 5, true⟩)]) ∧
    ((stepStoryToken
      (initStory ⟨.STORY_HEADER, "=== s", makeRange 0 0 5, { storyId := some "s" }⟩)
      ⟨.CHOICE_ID, "= start", makeRange 1 0 7,
        { choiceId := some "start", isHidden := some false }⟩).2 =
      [⟨"Duplicate choice ID: start", makeRange 1 0 7, Severity.error,
        some "duplicate-choice-id"⟩]) := by
  have hseed := claim_C10_start_seeded.1
    ⟨.STORY_HEADER, "=== s", makeRange 0 0 5, { storyId := some "s" }⟩
  have hmono := claim_C10_start_seeded.2.1
    (initStory ⟨.STORY_HEADER, "=== s", makeRange 0 0 5, { storyId := some "s" }⟩)
    ⟨.CHOICE_ID, "= other", makeRange 1 0 7,
      { choiceId := some "other", isHidden := some false }⟩
    "start" (by decide)
  have hdup := claim_C10_start_seeded.2.2
    (initStory ⟨.STORY_HEADER, "=== s", makeRange 0 0 5, { storyId := some "s" }⟩)
    ⟨.CHOICE_ID, "= start", makeRange 1 0 7,
      { choiceId := some "start", isHidden := some false }⟩
    ⟨"start", makeRange 0 0 5, true⟩ rfl rfl (by decide)
  exact ⟨hseed, hmono, by rw [hdup.1]; exact hseed, hdup.2.2⟩

/-! ## Lemmas about choice nesting (claim C6) -/

theorem mem_updateAt {α : Type} (l : List α) (i : Nat) (f : α → α) :
    ∀ x ∈ updateAt l i f, x ∈ l ∨ ∃ y ∈ l, x = f y := by
  induction l generalizing i with
  | nil => intro x hx; simp [updateAt] at hx
  | cons a rest ih =>
    intro x hx
    cases i with
    | zero =>
      simp only [updateAt, List.mem_cons] at hx
      rcases hx with rfl | hx
      · exact Or.inr ⟨a, List.mem_cons_self a rest, rfl⟩
      · exact Or.inl (List.mem_cons_of_mem a hx)
    | succ n =>
      simp only [updateAt, List.mem_cons] at hx
      rcases hx with rfl | hx
      · exact Or.inl (List.mem_cons_self x rest)
      · rcases ih n x hx with h | ⟨y, hy, rfl⟩
        · exact Or.inl (List.mem_cons_of_mem a h)
        · exact Or.inr ⟨y, List.mem_cons_of_mem a hy, rfl⟩

theorem jsOrNat_one_le (o : Option Nat) : 1 ≤ jsOrNat o 1 := by
  rcases o with _ | n
  · simp [jsOrNat]
  · simp only [jsOrNat]
    split <;> omega

/-- The story-loop step only adds choices of level ≥ 1 and never changes
the level of an existing arena entry. -/
theorem stepStoryToken_levels (st : StoryState) (t : Token)
    (h : ∀ cd ∈ st.arena, 1 ≤ cd.level) :
    ∀ cd ∈ (stepStoryToken st t).1.arena, 1 ≤ cd.level := by
  obtain ⟨ty, val, rng, data⟩ := t
  intro cd hcd
  cases ty <;> simp only [stepStoryToken] at hcd <;> (repeat' split at hcd) <;>
    first
    | exact h cd hcd
    | (rcases List.mem_append.mp hcd with hm | hm
       · exact h cd hm
       · simp only [List.mem_singleton] at hm
         subst hm
         exact jsOrNat_one_le _)
    | (rcases mem_updateAt _ _ _ cd hcd with hm | ⟨y, hy, rfl⟩
       · first
         | exact h cd hm
         | (rcases List.mem_append.mp hm with hm2 | hm2
            · exact h cd hm2
            · simp only [List.mem_singleton] at hm2
              subst hm2
              exact jsOrNat_one_le _)
       · first
         | exact h y hy
         | (rcases List.mem_append.mp hy with hm2 | hm2
            · exact h y hm2
            · simp only [List.mem_singleton] at hm2
              subst hm2
              exact jsOrNat_one_le _))

/-- Levels stay ≥ 1 through the whole parse loop. -/
theorem parseFold_levels (dis : Bool) :
    ∀ (toks : List Token) (pos : Nat) (ps : PState),
      (∀ s ∈ ps.stories, ∀ cd ∈ s.arena, 1 ≤ cd.level) →
      (∀ stS, ps.cur = some stS → ∀ cd ∈ stS.arena, 1 ≤ cd.level) →
      ∀ s ∈ (parseFold dis toks pos ps).stories, ∀ cd ∈ s.arena, 1 ≤ cd.level := by
  intro toks
  induction toks with
  | nil =>
    intro pos ps h1 h2 s hs
    cases hcur : ps.cur with
    | some stS =>
      simp only [parseFold, hcur] at hs
      rcases List.mem_append.mp hs with h | h
      · exact h1 s h
      · simp only [List.mem_singleton] at h
        subst h
        exact h2 stS hcur
    | none =>
      simp only [parseFold, hcur] at hs
      exact h1 s hs
  | cons t rest ih =>
    intro pos ps h1 h2 s hs
    obtain ⟨ty, val, rng, data⟩ := t
    cases hcur : ps.cur with
    | some stS =>
      cases ty <;> simp only [parseFold, hcur] at hs <;>
        first
        | -- EOF arm: finalize and stop
          (rcases List.mem_append.mp hs with h | h
           · exact h1 s h
           · simp only [List.mem_singleton] at h
             subst h
             exact h2 stS hcur)
        | -- STORY_HEADER arm: finalize and open a fresh story
          (refine ih _ _ ?_ ?_ s hs
           · intro s2 hs2
             rcases List.mem_append.mp hs2 with h | h
             · exact h1 s2 h
             · simp only [List.mem_singleton] at h
               subst h
               exact h2 stS hcur
           · intro stS2 hc2 cd hcd
             simp only [Option.some.injEq] at hc2
             subst hc2
             simp [initStory] at hcd)
        | -- every other token: one loop step
          (refine ih _ _ ?_ ?_ s hs
           · exact h1
           · intro stS2 hc2 cd hcd
             simp only [Option.some.injEq] at hc2
             subst hc2
             exact stepStoryToken_levels stS _ (h2 stS hcur) cd hcd)
    | none =>
      cases ty <;> simp only [parseFold, hcur] at hs <;>
        first
        | exact h1 s hs
        | (refine ih _ _ ?_ ?_ s hs
           · exact h1
           · intro stS2 hc2 cd hcd
             first
             | exact h2 stS2 hc2 cd hcd
             | (simp only [Option.some.injEq] at hc2
                subst hc2
                simp [initStory] at hcd)
             | (rw [hcur] at hc2
                simp at hc2)
             | simp at hc2)

/-! ## Claim C6: choice nesting (corrected) -/

/-- Counterexample to C6 as stated: parsing `"=== s\n* a\n*** b"`
attaches the depth-3 choice `b` directly as a child of the depth-1
choice `a` — a parent whose depth (1) is less than d−1 (2) — with no
orphaned-choice error and no story-root attachment, although no open
choice of depth 2 exists. -/
theorem claim_C6_counterexample :
    ((parse "=== s\n* a\n*** b").document.stories.map
      (fun s => (s.roots, s.arena.map (fun cd => (cd.level, cd.children)))) =
      [([0], [(1, [1]), (3, [])])]) ∧
    ((parse "=== s\n* a\n*** b").errors.filter
      (fun e => e.code == some "orphaned-choice") = []) := by
  constructor <;> decide

/-- C6 (amended): every Choice in every parsed story has nesting depth
≥ 1.  A choice-marker token at depth 1 is attached at story-root level
and resets the open-choice stack.  A choice-marker token at depth
d ≥ 2 is attached as a child of the last choice remaining after the
open-choice stack is truncated to its first d−1 entries; that parent
is the most recently opened choice at depth d−1 whenever no depth
levels were skipped, but after a skip its depth can be smaller than
d−1 and no diagnostic is emitted.  Only when the truncated stack is
empty is the choice attached at story-root level with an "orphaned
choice" error (and still incorporated into the tree). -/
theorem claim_C6_amended :
    (∀ text : String, ∀ s ∈ (parse text).document.stories,
      ∀ cd ∈ s.arena, 1 ≤ cd.level) ∧
    (∀ (st : StoryState) (t : Token),
      t.type = TokenType.CHOICE →
      jsOrNat t.data.choiceLevel 1 = 1 →
      (stepStoryToken st t).1.arena = st.arena ++ [parseChoice t] ∧
      (stepStoryToken st t).1.roots = st.roots ++ [st.arena.length] ∧
      (stepStoryToken st t).1.choiceStack = [st.arena.length] ∧
      (stepStoryToken st t).1.currentChoice = some st.arena.length ∧
      (stepStoryToken st t).2 = []) ∧
    (∀ (st : StoryState) (t : Token) (lvl p : Nat),
      t.type = TokenType.CHOICE →
      jsOrNat t.data.choiceLevel 1 = lvl → 2 ≤ lvl →
      (st.choiceStack.take (lvl - 1)).getLast? = some p →
      (stepStoryToken st t).1.arena =
        updateAt (st.arena ++ [parseChoice t]) p
          (fun cd => { cd with children := cd.children ++ [st.arena.length] }) ∧
      (stepStoryToken st t).1.roots = st.roots ∧
      (stepStoryToken st t).1.choiceStack =
        st.choiceStack.take (lvl - 1) ++ [st.arena.length] ∧
      (stepStoryToken st t).1.currentChoice = some st.arena.length ∧
      (stepStoryToken st t).2 = []) ∧
    (∀ (st : StoryState) (t : Token) (lvl : Nat),
      t.type = TokenType.CHOICE →
      jsOrNat t.data.choiceLevel 1 = lvl → 2 ≤ lvl →
      (st.choiceStack.take (lvl - 1)).getLast? = none →
      (stepStoryToken st t).1.arena = st.arena ++ [parseChoice t] ∧
      (stepStoryToken st t).1.roots = st.roots ++ [st.arena.length] ∧
      (stepStoryToken st t).1.choiceStack =
        st.choiceStack.take (lvl - 1) ++ [st.arena.length] ∧
      (stepStoryToken st t).1.currentChoice = some st.arena.length ∧
      (stepStoryToken st t).2 =
        [⟨"Choice level " ++ toString lvl ++ " has no parent choice", t.range,
          Severity.error, some "orphaned-choice"⟩]) := by
  refine ⟨?_, ?_, ?_, ?_⟩
  · intro text s hs cd hcd
    simp only [parse] at hs
    exact parseFold_levels _ _ 0 _ (by simp) (by simp) s hs cd hcd
  · intro st t hty hlvl
    obtain ⟨ty, val, rng, data⟩ := t
    simp only at hty
    subst hty
    simp only at hlvl
    simp [stepStoryToken, hlvl]
  · intro st t lvl p hty hlvl h2 hgl
    obtain ⟨ty, val, rng, data⟩ := t
    simp only at hty
    subst hty
    simp only at hlvl
    simp [stepStoryToken, hlvl, if_neg (by omega : ¬ lvl = 1), hgl]
  · intro st t lvl hty hlvl h2 hgl
    obtain ⟨ty, val, rng, data⟩ := t
    simp only at hty
    subst hty
    simp only at hlvl
    simp [stepStoryToken, hlvl, if_neg (by omega : ¬ lvl = 1), hgl]

/-- Witness for the amended C6: all levels of the counterexample
document's parse are ≥ 1; a depth-1 token resets the stack; a depth-2
token with a one-entry stack attaches under that entry; a depth-2 token
with an empty stack becomes an orphan with exactly the orphan error. -/
theorem claim_C6_amended_witness :
    ((parse "=== s\n* a\n*** b").document.stories.all
      (fun s => s.arena.all (fun cd => decide (1 ≤ cd.level))) = true) ∧
    ((stepStoryToken
      { id := "s", headerToken := ⟨.STORY_HEADER, "=== s", makeRange 0 0 5, {}⟩,
        lastTok := ⟨.STORY_HEADER, "=== s", makeRange 0 0 5, {}⟩,
        requirements := [], mutations := [], arena := [], roots := [],
        choiceIds := [("start", ⟨"start", makeRange 0 0 5, true⟩)],
        choiceStack := [], currentChoice := none }
      ⟨.CHOICE, "* a", makeRange 1 0 3, { choiceLevel := some 1 }⟩).1.choiceStack =
      [0]) ∧
    ((stepStoryToken
      { id := "s", headerToken := ⟨.STORY_HEADER, "=== s", makeRange 0 0 5, {}⟩,
        lastTok := ⟨.CHOICE, "* a", makeRange 1 0 3, { choiceLevel := some 1 }⟩,
        requirements := [], mutations := [],
        arena := [⟨1, "a", makeRange 1 0 3, none, [], [], [], [], []⟩],
        roots := [0],
        choiceIds := [("start", ⟨"start", makeRange 0 0 5, true⟩)],
        choiceStack := [0], currentChoice := some 0 }
      ⟨.CHOICE, "** b", makeRange 2 0 4, { choiceLevel := some 2 }⟩).1.arena =
      updateAt ([⟨1, "a", makeRange 1 0 3, none, [], [], [], [], []⟩] ++
          [parseChoice ⟨.CHOICE, "** b", makeRange 2 0 4, { choiceLevel := some 2 }⟩]) 0
        (fun cd => { cd with children := cd.children ++ [1] })) ∧
    ((stepStoryToken
      { id := "s", headerToken := ⟨.STORY_HEADER, "=== s", makeRange 0 0 5, {}⟩,
        lastTok := ⟨.STORY_HEADER, "=== s", makeRange 0 0 5, {}⟩,
        requirements := [], mutations := [], arena := [], roots := [],
        choiceIds := [("start", ⟨"start", makeRange 0 0 5, true⟩)],
        choiceStack := [], currentChoice := none }
      ⟨.CHOICE, "** b", makeRange 1 0 4, { choiceLevel := some 2 }⟩).2 =
      [⟨"Choice level 2 has no parent choice", makeRange 1 0 4,
        Severity.error, some "orphaned-choice"⟩]) := by
  refine ⟨?_, ?_, ?_, ?_⟩
  · have h := claim_C6_amended.1 "=== s\n* a\n*** b"
    simp only [List.all_eq_true]
    intro s hs cd hcd
    simpa using h s hs cd hcd
  · exact (claim_C6_amended.2.1 _
      ⟨.CHOICE, "* a", makeRange 1 0 3, { choiceLevel := some 1 }⟩
      rfl (by decide)).2.2.1
  · exact (claim_C6_amended.2.2.1 _
      ⟨.CHOICE, "** b", makeRange 2 0 4, { choiceLevel := some 2 }⟩
      2 0 rfl (by decide) (by decide) (by decide)).1
  · exact (claim_C6_amended.2.2.2 _
      ⟨.CHOICE, "** b", makeRange 1 0 4, { choiceLevel := some 2 }⟩
      2 rfl (by decide) (by decide) (by decide)).2.2.2.2

/-! ## Claim C7: hidden-choice synthesis (corrected) -/

/-- Counterexample to C7 as stated: parsing `"=== s\n* a\n**= b"`
synthesizes the hidden depth-2 choice `b` with empty text and registers
its identifier, but does NOT insert it as a normal depth-2 choice line
would be inserted (a normal `** b` becomes a child of the open depth-1
choice `a`, see the first conjunct's counterpart document): `b` is
attached at story-root level (`roots = [0, 1]`, `a.children = []`),
with no diagnostic. -/
theorem claim_C7_counterexample :
    ((parse "=== s\n* a\n**= b").document.stories.map
      (fun s => (s.roots, s.arena.map (fun cd => (cd.level, cd.text, cd.children)))) =
      [([0, 1], [(1, "a", []), (2, "", [])])]) ∧
    ((parse "=== s\n* a\n** b").document.stories.map
      (fun s => (s.roots, s.arena.map (fun cd => (cd.level, cd.text, cd.children)))) =
      [([0], [(1, "a", [1]), (2, "b", [])])]) ∧
    ((parse "=== s\n* a\n**= b").document.stories.map
      (fun s => s.choiceIds.map (fun p => p.1)) = [["start", "b"]]) ∧
    ((parse "=== s\n* a\n**= b").errors = []) := by
  refine ⟨?_, ?_, ?_, ?_⟩ <;> decide

/-- C7 (amended): a hidden-choice marker token with a fresh identifier
registers the identifier and synthesizes a Choice with empty display
text at depth d, which becomes the current choice — but it is not
inserted by the normal choice-attachment rule: regardless of its depth
it is attached at story-root level and the open-choice stack is reset
to it alone, with no diagnostic emitted. -/
theorem claim_C7_amended :
    ∀ (st : StoryState) (t : Token) (idStr : String),
      t.type = TokenType.CHOICE_ID →
      t.data.choiceId = some idStr → idStr ≠ "" →
      t.data.isHidden = some true →
      lookupCI st.choiceIds idStr = none →
      (stepStoryToken st t).1.choiceIds =
        st.choiceIds ++ [(idStr, ⟨idStr, t.range, true⟩)] ∧
      (stepStoryToken st t).1.arena =
        st.arena ++ [⟨jsOrNat t.data.choiceLevel 1, "", t.range,
          some ⟨idStr, t.range, true⟩, [], [], [], [], []⟩] ∧
      (stepStoryToken st t).1.roots = st.roots ++ [st.arena.length] ∧
      (stepStoryToken st t).1.choiceStack = [st.arena.length] ∧
      (stepStoryToken st t).1.currentChoice = some st.arena.length ∧
      (stepStoryToken st t).2 = [] := by
  intro st t idStr hty hcid hne hhid hlk
  obtain ⟨ty, val, rng, data⟩ := t
  simp only at hty hcid hhid
  subst hty
  have hids : parseChoiceId ⟨TokenType.CHOICE_ID, val, rng, data⟩ =
      ⟨idStr, rng, true⟩ := by
    simp [parseChoiceId, hcid, jsOrStr, hne, hhid, jsOrBool]
  simp only [stepStoryToken, hids, hlk]
  rw [setCI_of_absent _ _ _ hlk]
  simp

/-- Witness for the amended C7: in a story with the depth-1 choice `a`
open (stack `[0]`), a hidden `**= b` token (depth 2, fresh id) lands at
story-root level with stack reset — not under `a`. -/
theorem claim_C7_amended_witness :
    ((stepStoryToken
      { id := "s", headerToken := ⟨.STORY_HEADER, "=== s", makeRange 0 0 5, {}⟩,
        lastTok := ⟨.CHOICE, "* a", makeRange 1 0 3, { choiceLevel := some 1 }⟩,
        requirements := [], mutations := [],
        arena := [⟨1, "a", makeRange 1 0 3, none, [], [], [], [], []⟩],
        roots := [0],
        choiceIds := [("start", ⟨"start", makeRange 0 0 5, true⟩)],
        choiceStack := [0], currentChoice := some 0 }
      ⟨.CHOICE_ID, "**= b", makeRange 2 0 5,
        { choiceLevel := some 2, choiceId := some "b",
          isHidden := some true }⟩).1.roots = [0, 1]) ∧
    ((stepStoryToken
      { id := "s", headerToken := ⟨.STORY_HEADER, "=== s", makeRange 0 0 5, {}⟩,
        lastTok := ⟨.CHOICE, "* a", makeRange 1 0 3, { choiceLevel := some 1 }⟩,
        requirements := [], mutations := [],
        arena := [⟨1, "a", makeRange 1 0 3, none, [], [], [], [], []⟩],
        roots := [0],
        choiceIds := [("start", ⟨"start", makeRange 0 0 5, true⟩)],
        choiceStack := [0], currentChoice := some 0 }
      ⟨.CHOICE_ID, "**= b", makeRange 2 0 5,
        { choiceLevel := some 2, choiceId := some "b",
          isHidden := some true }⟩).1.arena =
      [⟨1, "a", makeRange 1 0 3, none, [], [], [], [], []⟩] ++
        [⟨2, "", makeRange 2 0 5, some ⟨"b", makeRange 2 0 5, true⟩,
          [], [], [], [], []⟩]) ∧
    ((stepStoryToken
      { id := "s", headerToken := ⟨.STORY_HEADER, "=== s", makeRange 0 0 5, {}⟩,
        lastTok := ⟨.CHOICE, "* a", makeRange 1 0 3, { choiceLevel := some 1 }⟩,
        requirements := [], mutations := [],
        arena := [⟨1, "a", makeRange 1 0 3, none, [], [], [], [], []⟩],
        roots := [0],
        choiceIds := [("start", ⟨"start", makeRange 0 0 5, true⟩)],
        choiceStack := [0], currentChoice := some 0 }
      ⟨.CHOICE_ID, "**= b", makeRange 2 0 5,
        { choiceLevel := some 2, choiceId := some "b",
          isHidden := some true }⟩).1.choiceStack = [1]) := by
  have h := claim_C7_amended
    { id := "s", headerToken := ⟨.STORY_HEADER, "=== s", makeRange 0 0 5, {}⟩,
      lastTok := ⟨.CHOICE, "* a", makeRange 1 0 3, { choiceLevel := some 1 }⟩,
      requirements := [], mutations := [],
      arena := [⟨1, "a", makeRange 1 0 3, none, [], [], [], [], []⟩],
      roots := [0],
      choiceIds := [("start", ⟨"start", makeRange 0 0 5, true⟩)],
      choiceStack := [0], currentChoice := some 0 }
    ⟨.CHOICE_ID, "**= b", makeRange 2 0 5,
      { choiceLevel := some 2, choiceId := some "b", isHidden := some true }⟩
    "b" rfl rfl (by decide) rfl (by decide)
  exact ⟨h.2.2.1, h.2.1, h.2.2.2.1⟩

/-! ## Claim C8: typo suggestions vs the unknown-command error
(corrected) -/

/-- Counterexample to C8 as stated: on `"~iff x"` — whose command word
`iff` exact-matches the typo table — the analysis emits the "did you
mean" suggestion IN ADDITION TO the "unknown command" error, not
instead of it. -/
theorem claim_C8_counterexample :
    (analyzeDiagnostics "~iff x").map (fun d => (d.code, d.severity)) =
      [(some "unknown-tilde-command", DiagnosticSeverity.Error),
       (some "typo", DiagnosticSeverity.Error)] := by
  decide

/-- C8 (amended): a tilde line whose command word is not in the
whitelist always gets the "unknown command" error from the lexer; if
the word additionally exact-matches the typo table, a "did you mean"
suggestion is emitted as well (both with severity Error) — the
suggestion supplements rather than replaces the unknown-command error.
Words matching neither table get only the unknown-command error. -/
theorem claim_C8_amended :
    (∀ p ∈ typoMap,
      ((analyzeDiagnostics ("~" ++ p.1 ++ " x")).any
        (fun d => d.code == some "unknown-tilde-command" &&
          d.severity == DiagnosticSeverity.Error)) = true ∧
      ((analyzeDiagnostics ("~" ++ p.1 ++ " x")).any
        (fun d => d.code == some "typo" &&
          d.message == "Did you mean ~" ++ p.2 ++ "?" &&
          d.severity == DiagnosticSeverity.Error)) = true) ∧
    ((analyzeDiagnostics "~zzz x").map (fun d => (d.code, d.severity)) =
      [(some "unknown-tilde-command", DiagnosticSeverity.Error)]) := by
  constructor
  · decide
  · decide

/-- Witness for the amended C8 at the table entry `iff → if`. -/
theorem claim_C8_amended_witness :
    ((analyzeDiagnostics "~iff x").any
      (fun d => d.code == some "unknown-tilde-command" &&
        d.severity == DiagnosticSeverity.Error)) = true ∧
    ((analyzeDiagnostics "~iff x").any
      (fun d => d.code == some "typo" &&
        d.message == "Did you mean ~if?" &&
        d.severity == DiagnosticSeverity.Error)) = true :=
  claim_C8_amended.1 ("iff", "if") (by decide)

/-! ## Claim C9: severity of the missing-expression diagnostic
(corrected) -/

/-- Counterexample to C9 as stated: the diagnostic for a recognized
tilde command with a required-but-empty expression (`"~if"`) is
surfaced with severity Warning, not Error. -/
theorem claim_C9_counterexample :
    (analyzeDiagnostics "~if").map (fun d => (d.code, d.severity)) =
      [(some "empty-tilde-expression", DiagnosticSeverity.Warning)] := by
  decide

/-- C9 (amended): the missing-directive-expression diagnostic is
surfaced as Warning (for each of the commands that require an
expression, it is the only diagnostic of the line); the remaining
structural diagnostics — malformed story header, unknown command,
unbalanced parentheses, unclosed block comment — are surfaced as
Error. -/
theorem claim_C9_amended :
    ((["if", "ifd", "setif", "callif"] : List String).all (fun cmd =>
      ((analyzeDiagnostics ("~" ++ cmd)).all (fun d =>
        d.code == some "empty-tilde-expression" &&
        d.severity == DiagnosticSeverity.Warning)) &&
      (analyzeDiagnostics ("~" ++ cmd)).length == 1) = true) ∧
    ((analyzeDiagnostics "===x").any (fun d =>
      d.code == some "invalid-story-header" &&
        d.severity == DiagnosticSeverity.Error) = true) ∧
    ((analyzeDiagnostics "~zzz x").any (fun d =>
      d.code == some "unknown-tilde-command" &&
        d.severity == DiagnosticSeverity.Error) = true) ∧
    ((analyzeDiagnostics "=== t\n~if (age >= 10").any (fun d =>
      d.code == some "unbalanced-parens" &&
        d.severity == DiagnosticSeverity.Error) = true) ∧
    ((analyzeDiagnostics "/* x").any (fun d =>
      d.code == some "unclosed-comment" &&
        d.severity == DiagnosticSeverity.Error) = true) := by
  refine ⟨?_, ?_, ?_, ?_, ?_⟩ <;> decide

end Exoscript
